import Mathlib

/-!
Verification of the artifact-merging core of the t3-mono scaffolder.

This file gives a shallow embedding of the merge logic of the repository:

* `merge_dependencies` and the `update_package_json_*` helpers
  (`src/utils/npm.rs`, `src/commands/add.rs`), which extend the
  `dependencies` / `devDependencies` groups of a `package.json` document;
* `merge_translations` (`src/scaffolding/cmd.rs`), which merges a message
  bundle at namespace granularity;
* `modify_prisma_schema` (`src/scaffolding/cmd.rs`) and
  `append_to_prisma_schema` (`src/scaffolding/better_auth.rs`), the textual
  schema patching;
* the `add` command dispatch (`src/commands/add.rs`) together with a
  file-system model of the scaffolding steps it runs.

JSON documents are modelled by the inductive `Json` below.  A serde_json
object (`serde_json::Map<String, Value>`, a key-ordered map with unique
keys) is modelled as an association list; `ains` mirrors `Map::insert`
(replace the value of an existing key, otherwise add the binding), and
`alookup` mirrors `Map::get`.  Key order inside the map is not observable
through lookups, so the association-list representation is faithful for
every property stated here.  Machine text (`String`/`str` in Rust) is
modelled as `List Char`.
-/

/-- Model of `serde_json::Value`. -/
inductive Json where
  | str (s : String)
  | num (n : Int)
  | bool (b : Bool)
  | null
  | arr (xs : List Json)
  | obj (fields : List (String × Json))

/-- Association-list lookup; mirrors `Map::get` (first binding of the key wins). -/
def alookup {κ α : Type} [DecidableEq κ] : List (κ × α) → κ → Option α
  | [], _ => none
  | (k, v) :: rest, q => if q = k then some v else alookup rest q

/-- Association-list insert; mirrors `Map::insert`: replace the value of the
first binding of the key if present, otherwise append a new binding. -/
def ains {κ α : Type} [DecidableEq κ] : List (κ × α) → κ → α → List (κ × α)
  | [], q, w => [(q, w)]
  | (k, v) :: rest, q, w => if q = k then (k, w) :: rest else (k, v) :: ains rest q w

/-- Eager `Option` alternative: first result if present, else the second. -/
def oor {α : Type} : Option α → Option α → Option α
  | some v, _ => some v
  | none, b => b

/-- Fields of a JSON object. -/
abbrev Fields := List (String × Json)
-- Constants transcribed from the Rust sources (string templates, dependency lists).

/-- Literal string constant `TRPC_INIT_WITH_AUTH` from `src/scaffolding/cmd.rs`. -/
def TRPC_INIT_WITH_AUTH : String := "import \x7b initTRPC, TRPCError \x7d from \"@trpc/server\";\nimport superjson from \"superjson\";\nimport \x7b ZodError \x7d from \"zod\";\nimport \x7b db \x7d from \"@/server/db\";\nimport \x7b auth \x7d from \"@/server/auth\";\nimport \x7b headers \x7d from \"next/headers\";\n\nexport const createTRPCContext = async (opts: \x7b headers: Headers \x7d) => \x7b\n  const session = await auth.api.getSession(\x7b\n    headers: await headers(),\n  \x7d);\n\n  return \x7b\n    db,\n    session,\n    userId: session?.user?.id,\n    ...opts,\n  \x7d;\n\x7d;\n\nconst t = initTRPC.context<typeof createTRPCContext>().create(\x7b\n  transformer: superjson,\n  errorFormatter(\x7b shape, error \x7d) \x7b\n    return \x7b\n      ...shape,\n      data: \x7b\n       \x20...shape.data,\n       \x20zodError:\n       \x20  error.cause instanceof ZodError ? error.cause.flatten() : null,\n      \x7d,\n    \x7d;\n  \x7d,\n\x7d);\n\nexport const createCallerFactory = t.createCallerFactory;\nexport const createTRPCRouter = t.router;\nexport const publicProcedure = t.procedure;\n\nconst enforceAuth = t.middleware((\x7b ctx, next \x7d) => \x7b\n  if (!ctx.session?.user?.id) \x7b\n    throw new TRPCError(\x7b code: \"UNAUTHORIZED\" \x7d);\n  \x7d\n  return next(\x7b\n    ctx: \x7b\n      session: ctx.session,\n      userId: ctx.session.user.id,\n    \x7d,\n  \x7d);\n\x7d);\n\nexport const protectedProcedure = t.procedure.use(enforceAuth);\n"

/-- Literal string constant `TRPC_ROOT_WITH_CMD` from `src/scaffolding/cmd.rs`. -/
def TRPC_ROOT_WITH_CMD : String := "import \x7b createCallerFactory, createTRPCRouter \x7d from \"@/server/api/trpc\";\nimport \x7b chatRouter \x7d from \"@/server/api/routers/chat\";\nimport \x7b tablesRouter \x7d from \"@/server/api/routers/tables\";\nimport \x7b docsRouter \x7d from \"@/server/api/routers/docs\";\n\nexport const appRouter = createTRPCRouter(\x7b\n  chat: chatRouter,\n  tables: tablesRouter,\n  docs: docsRouter,\n\x7d);\n\nexport type AppRouter = typeof appRouter;\nexport const createCaller = createCallerFactory(appRouter);\n"

/-- Literal string constant `CMD_PRISMA_MODELS` from `src/scaffolding/cmd.rs`. -/
def CMD_PRISMA_MODELS : String := "\n// =======\x3d=======\x3d=======\x3d=======\x3d=======\x3d=======\x3d=======\x3d=======\x3d=======\x3d====\n// CommandIsland AI Models\n// =======\x3d=======\x3d=======\x3d=======\x3d=======\x3d=======\x3d=======\x3d=======\x3d=======\x3d====\n\nenum ProcessingStatus \x7b\n  PENDING\n  IN_PROGRESS\n  COMPLETED\n  FAILED\n\x7d\n\nenum ChunkType \x7b\n  TEXT\n  TABLE\n  HEADER\n  FORM_FIELD\n  LIST\n  IMAGE_DESCRIPTION\n\x7d\n\nmodel ChatThread \x7b\n  id       \x20   String       @id @default(cuid())\n  title       \x20String?\n  submissionId String?\n  userId       String\n  user       \x20 User       \x20 @relation(fields: [userId], references: [id], onDelete: Cascade)\n  messages     ChatMessage[]\n  attachments  ChatAttachment[]\n  createdAt    DateTime     @default(now())\n  updatedAt    DateTime     @updatedAt\n\n  @@index([userId])\n  @@index([submissionId])\n\x7d\n\nmodel ChatMessage \x7b\n  id       \x20String     @id @default(cuid())\n  role      String\n  content   String\n  metadata  Json?\n  threadId  String\n  thread    ChatThread @relation(fields: [threadId], references: [id], onDelete: Cascade)\n  createdAt DateTime   @default(now())\n\n  @@index([threadId])\n\x7d\n\nmodel ChatAttachment \x7b\n  id       \x20       String       \x20   @id @default(cuid())\n  filename       \x20 String\n  mimeType       \x20 String\n  s3Key       \x20    String\n  fileSize       \x20 Int?\n  extractedContent String?\n  processingStatus ProcessingStatus @default(PENDING)\n  error       \x20    String?\n\n  threadId String\n  thread   ChatThread @relation(fields: [threadId], references: [id], onDelete: Cascade)\n\n  chunks ChatAttachmentChunk[]\n\n  createdAt DateTime @default(now())\n  updatedAt DateTime @updatedAt\n\n  @@index([threadId])\n\x7d\n\nmodel ChatAttachmentChunk \x7b\n  id       \x20 String    @id @default(cuid())\n  content    String\n  chunkIndex Int\n  chunkType  ChunkType @default(TEXT)\n  embedding  Unsupported(\"vector(1024)\")?\n\n  attachmentId String\n  attachment   ChatAttachment @relation(fields: [attachmentId], references: [id], onDelete: Cascade)\n\n  createdAt DateTime @default(now())\n\n  @@index([attachmentId])\n\x7d\n\nmodel AITableSession \x7b\n  id       \x20   String     @id @default(cuid())\n  submissionId String\n  messageId    String?\n  useCase      Json\n  columns      Json\n  results      Json       @default(\"\x7b\x7d\")\n  userId       String\n  user       \x20 User       @relation(fields: [userId], references: [id], onDelete: Cascade)\n  createdAt    DateTime   @default(now())\n  updatedAt    DateTime   @updatedAt\n\n  @@index([submissionId])\n  @@index([userId])\n  @@index([messageId])\n\x7d\n\nmodel AIDocSession \x7b\n  id       \x20   String     @id @default(cuid())\n  submissionId String\n  messageId    String?\n  template     Json\n  sections     Json\n  fileType     String\n  status       String     @default(\"pending\")\n  s3Key       \x20String?\n  filename     String?\n  userId       String\n  user       \x20 User       @relation(fields: [userId], references: [id], onDelete: Cascade)\n  createdAt    DateTime   @default(now())\n  updatedAt    DateTime   @updatedAt\n\n  @@index([submissionId])\n  @@index([userId])\n  @@index([messageId])\n\x7d\n"

/-- Literal string constant `APP_LAYOUT_WITH_CMD` from `src/scaffolding/cmd.rs`. -/
def APP_LAYOUT_WITH_CMD : String := "import \"@/styles/globals.css\";\n\nimport \x7b type Metadata \x7d from \"next\";\nimport \x7b Geist \x7d from \"next/font/google\";\nimport \x7b NextIntlClientProvider, useLocale \x7d from \"next-intl\";\nimport \x7b TRPCReactProvider \x7d from \"@/trpc/react\";\nimport \x7b ThemeProvider \x7d from \"./_components/ThemeProvider\";\nimport \x7b CommandIslandLayout \x7d from \"./_components/CommandIslandLayout\";\n\nexport const metadata: Metadata = \x7b\n  title: \"My App\",\n  description: \"Built with t3-mono\",\n  icons: [\x7b rel: \"icon\", url: \"/favicon.ico\" \x7d],\n\x7d;\n\nconst geist = Geist(\x7b\n  subsets: [\"latin\"],\n  variable: \"--font-geist-sans\",\n\x7d);\n\nexport default function RootLayout(\x7b\n  children,\n\x7d: Readonly<\x7b children: React.ReactNode \x7d>) \x7b\n  const locale = useLocale();\n  return (\n    <html lang=\x7blocale\x7d className=\x7b\x60$\x7bgeist.variable\x7d\x60\x7d suppressHydrationWarning>\n      <body>\n       \x20<ThemeProvider>\n       \x20  <NextIntlClientProvider locale=\x7blocale\x7d>\n       \x20    <TRPCReactProvider>\n       \x20      <CommandIslandLayout>\x7bchildren\x7d</CommandIslandLayout>\n       \x20    </TRPCReactProvider>\n       \x20  </NextIntlClientProvider>\n       \x20</ThemeProvider>\n      </body>\n    </html>\n  );\n\x7d\n"

/-- Literal string constant `CMD_LAYOUT_WRAPPER` from `src/scaffolding/cmd.rs`. -/
def CMD_LAYOUT_WRAPPER : String := "\"use client\";\n\nimport \x7b useEffect, useCallback \x7d from \"react\";\nimport \x7b CommandIslandProvider, useCommandIsland \x7d from \"@/lib/command-island-context\";\nimport \x7b SplitViewProvider, useSplitView \x7d from \"@/lib/split-view-context\";\nimport \x7b SplitViewShell \x7d from \"@/components/layout/SplitViewShell\";\nimport \x7b CommandIsland \x7d from \"@/components/layout/CommandIsland\";\nimport \x7b ChatPanel \x7d from \"@/components/chat/ChatPanel\";\n\n// -------\x2d-------\x2d-------\x2d-------\x2d-------\x2d-------\x2d-------\x2d-------\x2d-------\x2d---\n// Wiring components -- connect CommandIsland modes to SplitView panels\n// -------\x2d-------\x2d-------\x2d-------\x2d-------\x2d-------\x2d-------\x2d-------\x2d-------\x2d---\n\nfunction ChatWiring() \x7b\n  const \x7b setOnAiSubmit, currentSubmissionId, chatSendMessage \x7d =\n    useCommandIsland();\n  const \x7b rightPanel, openPanel \x7d = useSplitView();\n\n  const handleAiSubmit = useCallback(\n    (message: string, attachmentIds?: string[]) => \x7b\n      if (rightPanel.open && chatSendMessage) \x7b\n       \x20chatSendMessage(message, attachmentIds);\n       \x20return;\n      \x7d\n      openPanel(\n       \x20\"right\",\n       \x20<ChatPanel\n       \x20  submissionId=\x7bcurrentSubmissionId\x7d\n       \x20  initialMessage=\x7bmessage\x7d\n       \x20/>,\n      );\n    \x7d,\n    [currentSubmissionId, openPanel, rightPanel.open, chatSendMessage],\n  );\n\n  useEffect(() => \x7b\n    setOnAiSubmit(() => handleAiSubmit);\n    return () => setOnAiSubmit(null);\n  \x7d, [handleAiSubmit, setOnAiSubmit]);\n\n  return null;\n\x7d\n\nfunction TablesWiring() \x7b\n  const \x7b setOnTablesSubmit, currentSubmissionId, chatTablesOrchestrate \x7d =\n    useCommandIsland();\n  const \x7b rightPanel, openPanel \x7d = useSplitView();\n\n  const handleTablesSubmit = useCallback(\n    (prompt: string) => \x7b\n      if (rightPanel.open && chatTablesOrchestrate) \x7b\n       \x20chatTablesOrchestrate(prompt);\n       \x20return;\n      \x7d\n      openPanel(\n       \x20\"right\",\n       \x20<ChatPanel submissionId=\x7bcurrentSubmissionId\x7d tablesPrompt=\x7bprompt\x7d />,\n      );\n    \x7d,\n    [currentSubmissionId, openPanel, rightPanel.open, chatTablesOrchestrate],\n  );\n\n  useEffect(() => \x7b\n    setOnTablesSubmit(() => handleTablesSubmit);\n    return () => setOnTablesSubmit(null);\n  \x7d, [handleTablesSubmit, setOnTablesSubmit]);\n\n  return null;\n\x7d\n\nfunction DocsWiring() \x7b\n  const \x7b setOnDocsSubmit, currentSubmissionId, chatDocsOrchestrate \x7d =\n    useCommandIsland();\n  const \x7b rightPanel, openPanel \x7d = useSplitView();\n\n  const handleDocsSubmit = useCallback(\n    (prompt: string) => \x7b\n      if (rightPanel.open && chatDocsOrchestrate) \x7b\n       \x20chatDocsOrchestrate(prompt);\n       \x20return;\n      \x7d\n      openPanel(\n       \x20\"right\",\n       \x20<ChatPanel submissionId=\x7bcurrentSubmissionId\x7d docsPrompt=\x7bprompt\x7d />,\n      );\n    \x7d,\n    [currentSubmissionId, openPanel, rightPanel.open, chatDocsOrchestrate],\n  );\n\n  useEffect(() => \x7b\n    setOnDocsSubmit(() => handleDocsSubmit);\n    return () => setOnDocsSubmit(null);\n  \x7d, [handleDocsSubmit, setOnDocsSubmit]);\n\n  return null;\n\x7d\n\n// -------\x2d-------\x2d-------\x2d-------\x2d-------\x2d-------\x2d-------\x2d-------\x2d-------\x2d---\n// Layout\n// -------\x2d-------\x2d-------\x2d-------\x2d-------\x2d-------\x2d-------\x2d-------\x2d-------\x2d---\n\nexport function CommandIslandLayout(\x7b children \x7d: \x7b children: React.ReactNode \x7d) \x7b\n  return (\n    <CommandIslandProvider>\n      <SplitViewProvider>\n       \x20<ChatWiring />\n       \x20<TablesWiring />\n       \x20<DocsWiring />\n       \x20<div className=\"flex min-h-screen flex-col bg-background\">\n       \x20  <SplitViewShell>\x7bchildren\x7d</SplitViewShell>\n       \x20  <CommandIsland />\n       \x20</div>\n      </SplitViewProvider>\n    </CommandIslandProvider>\n  );\n\x7d\n"

/-- Literal string constant `PAGE_GUIDE_STUB` from `src/scaffolding/cmd.rs`. -/
def PAGE_GUIDE_STUB : String := "// PageGuide stub -- imported by SplitViewShell\n// Replace with your own page-level guide component if desired.\n\nexport function PageGuide() \x7b\n  return null;\n\x7d\n\nexport default PageGuide;\n"

/-- Literal string constant `CLAUDE_CMD_SKILL` from `src/scaffolding/cmd.rs`. -/
def CLAUDE_CMD_SKILL : String := "---\nskill: commandisland-integration\ndescription: >\n  Integrate the CommandIsland AI module (floating command bar, AI chat, AI Tables,\n  AI Docs, SplitView panel system) into an existing Next.js + tRPC + Prisma project.\n  The module ships as an export/ directory of source files that get copied, wired,\n  and customized for the target domain.\nprerequisites:\n  - Next.js 16+ (App Router)\n  - tRPC v11 with superjson transformer\n  - Prisma 7+ with PostgreSQL (pgvector extension)\n  - Tailwind CSS 4+ with shadcn/ui\n  - next-intl for translations\nauthor: prototype-ppap\nversion: \"1.0\"\n---\n\n# CommandIsland AI Module -- Integration Skill\n\nThis project includes the CommandIsland AI module with:\n\n## Components\n- **CommandIsland** (\x60src/components/layout/CommandIsland.tsx\x60) - Floating command bar with AI/Tables/Docs modes\n- **SplitViewShell** (\x60src/components/layout/SplitViewShell.tsx\x60) - Split-panel layout system\n- **ChatPanel** (\x60src/components/chat/\x60) - Full AI chat with streaming, file attachments, reference tokens\n- **AITable** (\x60src/components/tables/\x60) - AI-powered data tables with agent columns\n- **AIDocGenerator** (\x60src/components/docs/\x60) - AI document generation (PDF, Excel, PowerPoint)\n\n## Server\n- **Chat routers** (\x60src/server/api/routers/chat.ts\x60) - tRPC endpoints for chat threads\n- **Tables routers** (\x60src/server/api/routers/tables.ts\x60) - tRPC endpoints for AI tables\n- **Docs routers** (\x60src/server/api/routers/docs.ts\x60) - tRPC endpoints for doc generation\n- **LLM integration** (\x60src/server/chat/llm.ts\x60) - Multi-provider LLM with tool calling\n- **Chat tools** (\x60src/server/chat/chat-tools.ts\x60) - Database query tools for LLM\n\n## Customization Points\n- \x60src/server/chat/chat-tools.ts\x60 - Add domain-specific tools the LLM can call\n- \x60src/server/chat/llm.ts\x60 - Customize the system prompt\n- \x60src/server/chat/context-builder.ts\x60 - Build entity context for LLM\n- \x60src/lib/ai-table-agent-presets.ts\x60 - Define AI table agent presets\n- \x60src/lib/chat-tokens.ts\x60 - Define inline reference token types\n- \x60src/components/layout/CommandIsland.tsx\x60 - Customize quick suggestions and context entries\n\n## Environment Variables\n- \x60ANTHROPIC_API_KEY\x60 - Required for Claude models\n- \x60OPENAI_API_KEY\x60 - Optional for GPT models\n- \x60AWS_REGION\x60, \x60AWS_S3_BUCKET_NAME\x60, \x60AWS_ACCESS_KEY_ID\x60, \x60AWS_SECRET_ACCESS_KEY\x60 - For file uploads\n"

/-- JSON constant `CMD_MESSAGES_EN` from `src/scaffolding/cmd.rs`, in parsed form (the Rust code parses the literal with serde_json before merging). -/
def CMD_MESSAGES_EN : Json :=
  Json.obj [
    ("commandIsland", Json.obj [
      ("queryMode", Json.str "Filter"),
      ("aiMode", Json.str "AI Assistant"),
      ("clearQuery", Json.str "Clear filter"),
      ("defaultPlaceholder", Json.str "Type to filter..."),
      ("aiPlaceholder", Json.str "Ask about this submission..."),
      ("comingSoon", Json.str "AI assistant coming soon"),
      ("attach", Json.str "Attach file"),
      ("send", Json.str "Send"),
      ("toggleChat", Json.str "Toggle chat"),
      ("unsupportedFileType", Json.str "Unsupported file type. Accepted: PDF, Word, Excel, PowerPoint, text, images."),
      ("fileTooLarge", Json.str "File too large. Maximum 50 MB."),
      ("removeAttachment", Json.str "Remove"),
      ("toggleContext", Json.str "Show context"),
      ("contextSubmission", Json.str "Submission"),
      ("contextDocument", Json.str "Document"),
      ("contextFinding", Json.str "Finding"),
      ("contextChunk", Json.str "Chunk"),
      ("contextChecklist", Json.str "Checklist"),
      ("contextDocType", Json.str "Doc Type"),
      ("contextRegulation", Json.str "Regulation"),
      ("tablesMode", Json.str "AI Tables"),
      ("tablesPlaceholder", Json.str "Describe what to analyze across documents..."),
      ("docsMode", Json.str "AI Docs"),
      ("docsPlaceholder", Json.str "Describe what document to generate..."),
      ("aiSuggestions", Json.str "AI Suggestions"),
      ("suggestSummarize", Json.str "Summarize submission"),
      ("suggestCompliance", Json.str "Compliance check"),
      ("suggestFindings", Json.str "List findings"),
      ("suggestCrossRef", Json.str "Cross-reference"),
      ("suggestRisks", Json.str "Quality risks"),
      ("suggestExtractData", Json.str "Extract data")]),
    ("tables", Json.obj [
      ("document", Json.str "Document"),
      ("runAll", Json.str "Run All"),
      ("addColumn", Json.str "Add Column"),
      ("export", Json.str "Export CSV"),
      ("runColumn", Json.str "Run Column"),
      ("removeColumn", Json.str "Remove"),
      ("columnConfig", Json.str "Configure column"),
      ("modelSelector", Json.str "Model"),
      ("outputFormat", Json.str "Output Format"),
      ("agentDescription", Json.str "Agent Prompt"),
      ("save", Json.str "Save"),
      ("selectUseCase", Json.str "Select a use case"),
      ("cellsComplete", Json.str "\x7bcount\x7d of \x7btotal\x7d cells complete"),
      ("noSubmission", Json.str "No submission selected"),
      ("answer", Json.str "Answer"),
      ("explanation", Json.str "Explanation"),
      ("sourceReference", Json.str "Source Reference"),
      ("selectAgent", Json.str "Select an agent type"),
      ("customColumn", Json.str "Custom Column"),
      ("customColumnDescription", Json.str "Define your own agent with a custom prompt"),
      ("columnName", Json.str "Column Name"),
      ("columnNamePlaceholder", Json.str "e.g., Part Number Check"),
      ("back", Json.str "Back"),
      ("thinking", Json.str "Thinking…"),
      ("error", Json.str "Error"),
      ("refreshColumn", Json.str "Re-run Column"),
      ("reasoningLevel", Json.str "Reasoning"),
      ("reasoningOff", Json.str "Off"),
      ("reasoningLow", Json.str "Low"),
      ("reasoningMedium", Json.str "Medium"),
      ("reasoningHigh", Json.str "High"),
      ("tools", Json.str "Tools"),
      ("agentSettings", Json.str "Agent Settings"),
      ("complianceStandards", Json.str "Standards / Requirements"),
      ("complianceStandardsPlaceholder", Json.str "e.g., IATF 16949 Section 8.3, AIAG PPAP 4th Edition"),
      ("fieldsToExtract", Json.str "Values to Extract"),
      ("fieldsToExtractPlaceholder", Json.str "e.g., Part Number, Revision Level, Material Spec, Dimensions"),
      ("focusArea", Json.str "Focus Area"),
      ("focusAreaPlaceholder", Json.str "e.g., dimensional data, material certifications"),
      ("summaryLength", Json.str "Summary Length"),
      ("summaryBrief", Json.str "Brief (1-2 sentences)"),
      ("summaryStandard", Json.str "Standard (1 paragraph)"),
      ("summaryDetailed", Json.str "Detailed (multi-paragraph)"),
      ("fieldsToCompare", Json.str "Fields to Cross-Reference"),
      ("fieldsToComparePlaceholder", Json.str "e.g., part numbers, revision dates, material specs"),
      ("auditStandards", Json.str "Audit Standards"),
      ("auditStandardsPlaceholder", Json.str "e.g., IATF 16949, VDA 6.3, Customer Specific Requirements"),
      ("riskFocus", Json.str "Risk Areas of Focus"),
      ("riskFocusPlaceholder", Json.str "e.g., dimensional tolerances, material traceability"),
      ("advancedPrompt", Json.str "Advanced: System Prompt"),
      ("userInputColumn", Json.str "User Input"),
      ("userInputColumnDescription", Json.str "Add a column for manual data entry")]),
    ("docs", Json.obj [
      ("selectTemplate", Json.str "Select a document template"),
      ("download", Json.str "Download"),
      ("sectionsComplete", Json.str "\x7bcount\x7d of \x7btotal\x7d sections complete"),
      ("generatingFile", Json.str "Generating file..."),
      ("fileGenerationError", Json.str "File generation failed"),
      ("retry", Json.str "Retry"),
      ("retrySection", Json.str "Retry"),
      ("retryAllFailed", Json.str "Retry failed sections"),
      ("sectionsFailed", Json.str "\x7bcount\x7d section(s) failed")]),
    ("chat", Json.obj [
      ("title", Json.str "AI Assistant"),
      ("placeholder", Json.str "Ask about this submission..."),
      ("send", Json.str "Send"),
      ("thinking", Json.str "Thinking..."),
      ("newThread", Json.str "New Thread"),
      ("clearThread", Json.str "Clear Thread"),
      ("contextBound", Json.str "Submission context"),
      ("noContext", Json.str "General assistant"),
      ("errorFailed", Json.str "Failed to send message. Please try again."),
      ("welcomeMessage", Json.str "Ask me anything about your data. I can help analyze content, extract information, and suggest improvements."),
      ("referenceNotFound", Json.str "Reference not found"),
      ("showMore", Json.str "Show more"),
      ("showLess", Json.str "Show less"),
      ("downloadDocument", Json.str "Download document"),
      ("pageLabel", Json.str "Page"),
      ("viewDocument", Json.str "View document"),
      ("viewTable", Json.str "View table"),
      ("viewImage", Json.str "View image")])]

/-- JSON constant `CMD_MESSAGES_DE` from `src/scaffolding/cmd.rs`, in parsed form (the Rust code parses the literal with serde_json before merging). -/
def CMD_MESSAGES_DE : Json :=
  Json.obj [
    ("commandIsland", Json.obj [
      ("queryMode", Json.str "Filter"),
      ("aiMode", Json.str "KI-Assistent"),
      ("clearQuery", Json.str "Filter löschen"),
      ("defaultPlaceholder", Json.str "Eingabe zum Filtern..."),
      ("aiPlaceholder", Json.str "Frage zu dieser Einreichung stellen..."),
      ("comingSoon", Json.str "KI-Assistent kommt bald"),
      ("attach", Json.str "Datei anhängen"),
      ("send", Json.str "Senden"),
      ("toggleChat", Json.str "Chat umschalten"),
      ("unsupportedFileType", Json.str "Nicht unterstützter Dateityp. Akzeptiert: PDF, Word, Excel, PowerPoint, Text, Bilder."),
      ("fileTooLarge", Json.str "Datei zu groß. Maximal 50 MB."),
      ("removeAttachment", Json.str "Entfernen"),
      ("toggleContext", Json.str "Kontext anzeigen"),
      ("contextSubmission", Json.str "Einreichung"),
      ("contextDocument", Json.str "Dokument"),
      ("contextFinding", Json.str "Befund"),
      ("contextChunk", Json.str "Abschnitt"),
      ("contextChecklist", Json.str "Checkliste"),
      ("contextDocType", Json.str "Dokumenttyp"),
      ("contextRegulation", Json.str "Vorschrift"),
      ("tablesMode", Json.str "AI Tabellen"),
      ("tablesPlaceholder", Json.str "Beschreiben Sie, was über alle Dokumente analysiert werden soll..."),
      ("docsMode", Json.str "AI Dokumente"),
      ("docsPlaceholder", Json.str "Beschreiben Sie, welches Dokument erstellt werden soll..."),
      ("aiSuggestions", Json.str "KI-Vorschläge"),
      ("suggestSummarize", Json.str "Einreichung zusammenfassen"),
      ("suggestCompliance", Json.str "Konformitätsprüfung"),
      ("suggestFindings", Json.str "Befunde auflisten"),
      ("suggestCrossRef", Json.str "Querverweise prüfen"),
      ("suggestRisks", Json.str "Qualitätsrisiken"),
      ("suggestExtractData", Json.str "Daten extrahieren")]),
    ("tables", Json.obj [
      ("document", Json.str "Dokument"),
      ("runAll", Json.str "Alle ausführen"),
      ("addColumn", Json.str "Spalte hinzufügen"),
      ("export", Json.str "CSV exportieren"),
      ("runColumn", Json.str "Spalte ausführen"),
      ("removeColumn", Json.str "Entfernen"),
      ("columnConfig", Json.str "Spalte konfigurieren"),
      ("modelSelector", Json.str "Modell"),
      ("outputFormat", Json.str "Ausgabeformat"),
      ("agentDescription", Json.str "Agent-Prompt"),
      ("save", Json.str "Speichern"),
      ("selectUseCase", Json.str "Anwendungsfall auswählen"),
      ("cellsComplete", Json.str "\x7bcount\x7d von \x7btotal\x7d Zellen abgeschlossen"),
      ("noSubmission", Json.str "Keine Einreichung ausgewählt"),
      ("answer", Json.str "Antwort"),
      ("explanation", Json.str "Erklärung"),
      ("sourceReference", Json.str "Quellenreferenz"),
      ("selectAgent", Json.str "Agententyp auswählen"),
      ("customColumn", Json.str "Benutzerdefinierte Spalte"),
      ("customColumnDescription", Json.str "Eigenen Agenten mit benutzerdefiniertem Prompt erstellen"),
      ("columnName", Json.str "Spaltenname"),
      ("columnNamePlaceholder", Json.str "z.B. Teilenummer-Prüfung"),
      ("back", Json.str "Zurück"),
      ("thinking", Json.str "Denkt nach…"),
      ("error", Json.str "Fehler"),
      ("refreshColumn", Json.str "Spalte neu ausführen"),
      ("reasoningLevel", Json.str "Reasoning"),
      ("reasoningOff", Json.str "Aus"),
      ("reasoningLow", Json.str "Niedrig"),
      ("reasoningMedium", Json.str "Mittel"),
      ("reasoningHigh", Json.str "Hoch"),
      ("tools", Json.str "Werkzeuge"),
      ("agentSettings", Json.str "Agent-Einstellungen"),
      ("complianceStandards", Json.str "Standards / Anforderungen"),
      ("complianceStandardsPlaceholder", Json.str "z.B. IATF 16949 Abschnitt 8.3, AIAG PPAP 4. Ausgabe"),
      ("fieldsToExtract", Json.str "Zu extrahierende Werte"),
      ("fieldsToExtractPlaceholder", Json.str "z.B. Teilenummer, Revisionsstand, Werkstoffspezifikation, Maße"),
      ("focusArea", Json.str "Schwerpunktbereich"),
      ("focusAreaPlaceholder", Json.str "z.B. Maßdaten, Werkstoffzertifikate"),
      ("summaryLength", Json.str "Zusammenfassungslänge"),
      ("summaryBrief", Json.str "Kurz (1-2 Sätze)"),
      ("summaryStandard", Json.str "Standard (1 Absatz)"),
      ("summaryDetailed", Json.str "Ausführlich (mehrere Absätze)"),
      ("fieldsToCompare", Json.str "Felder zum Quervergleich"),
      ("fieldsToComparePlaceholder", Json.str "z.B. Teilenummern, Revisionsdaten, Werkstoffspezifikationen"),
      ("auditStandards", Json.str "Prüfstandards"),
      ("auditStandardsPlaceholder", Json.str "z.B. IATF 16949, VDA 6.3, Kundenspezifische Anforderungen"),
      ("riskFocus", Json.str "Risikoschwerpunkte"),
      ("riskFocusPlaceholder", Json.str "z.B. Maßtoleranzen, Werkstoffrückverfolgbarkeit"),
      ("advancedPrompt", Json.str "Erweitert: System-Prompt"),
      ("userInputColumn", Json.str "Benutzereingabe"),
      ("userInputColumnDescription", Json.str "Spalte zur manuellen Dateneingabe hinzufügen")]),
    ("docs", Json.obj [
      ("selectTemplate", Json.str "Dokumentvorlage auswählen"),
      ("download", Json.str "Herunterladen"),
      ("sectionsComplete", Json.str "\x7bcount\x7d von \x7btotal\x7d Abschnitten abgeschlossen"),
      ("generatingFile", Json.str "Datei wird erstellt..."),
      ("fileGenerationError", Json.str "Dateierstellung fehlgeschlagen"),
      ("retry", Json.str "Erneut versuchen"),
      ("retrySection", Json.str "Erneut versuchen"),
      ("retryAllFailed", Json.str "Fehlgeschlagene Abschnitte erneut versuchen"),
      ("sectionsFailed", Json.str "\x7bcount\x7d Abschnitt(e) fehlgeschlagen")]),
    ("chat", Json.obj [
      ("title", Json.str "KI-Assistent"),
      ("placeholder", Json.str "Frage zu dieser Einreichung stellen..."),
      ("send", Json.str "Senden"),
      ("thinking", Json.str "Denkt nach..."),
      ("newThread", Json.str "Neues Gespräch"),
      ("clearThread", Json.str "Gespräch löschen"),
      ("contextBound", Json.str "Einreichungskontext"),
      ("noContext", Json.str "Allgemeiner Assistent"),
      ("errorFailed", Json.str "Nachricht konnte nicht gesendet werden. Bitte versuchen Sie es erneut."),
      ("welcomeMessage", Json.str "Fragen Sie mich zu Ihren Daten. Ich kann Inhalte analysieren, Informationen extrahieren und Verbesserungen vorschlagen."),
      ("referenceNotFound", Json.str "Referenz nicht gefunden"),
      ("showMore", Json.str "Mehr anzeigen"),
      ("showLess", Json.str "Weniger anzeigen"),
      ("downloadDocument", Json.str "Dokument herunterladen"),
      ("pageLabel", Json.str "Seite"),
      ("viewDocument", Json.str "Dokument anzeigen"),
      ("viewTable", Json.str "Tabelle anzeigen"),
      ("viewImage", Json.str "Bild anzeigen")])]

/-- Literal string constant `RESTATE_README` from `src/scaffolding/restate.rs`. -/
def RESTATE_README : String := "# Restate Durable Workflows\n\nThis project includes Restate for building durable, fault-tolerant workflows.\n\n## Quick Start\n\n\x60\x60\x60bash\n# Start infrastructure (Restate, Ollama, Docling, PostgreSQL)\ndocker-compose up -d\n\n# Install dependencies\ncd services && npm install\n\n# Start services\nnpm run dev\n\n# Register with Restate\ncurl -X POST http://localhost:9070/deployments \\\n  -H \x27content-type: application/json\x27 \\\n  -d \x27\x7b\"uri\": \"http://host.docker.internal:9082\"\x7d\x27\n\x60\x60\x60\n\n## Available Services\n\n### Embedding Service (port 9082)\nGenerate text embeddings using Ollama:\n\x60\x60\x60bash\ncurl -X POST http://localhost:8080/EmbeddingService/embed \\\n  -H \x27content-type: application/json\x27 \\\n  -d \x27\x7b\"text\": \"Hello, world!\"\x7d\x27\n\x60\x60\x60\n\n### Extraction Service (port 9082)\nExtract content from documents (PDF, DOCX, PPTX):\n\x60\x60\x60bash\ncurl -X POST http://localhost:8080/ExtractionService/extract \\\n  -H \x27content-type: application/json\x27 \\\n  -d \x27\x7b\"url\": \"https://example.com/document.pdf\", \"outputFormat\": \"markdown\"\x7d\x27\n\x60\x60\x60\n\n### AWS S3 Service (port 9082)\nS3 operations with durable execution:\n\x60\x60\x60bash\ncurl -X POST http://localhost:8080/S3Service/upload \\\n  -H \x27content-type: application/json\x27 \\\n  -d \x27\x7b\"bucket\": \"my-bucket\", \"key\": \"file.txt\", \"content\": \"...\"\x7d\x27\n\x60\x60\x60\n\n### AWS Lambda Service (port 9082)\nInvoke Lambda functions durably:\n\x60\x60\x60bash\ncurl -X POST http://localhost:8080/LambdaService/invoke \\\n  -H \x27content-type: application/json\x27 \\\n  -d \x27\x7b\"functionName\": \"my-function\", \"payload\": \x7b\x7d\x7d\x27\n\x60\x60\x60\n\n## Architecture\n\n\x60\x60\x60\n┌───────\u2500─────┐     ┌───────\u2500─────┐     ┌───────\u2500─────┐\n│   Client    │────▶│   Restate   │────▶│  Services   │\n│       \x20     │     │  (8080)     │     │  (9082)     │\n└───────\u2500─────┘     └───────\u2500─────┘     └───────\u2500─────┘\n       \x20       \x20       \x20   │\n       \x20       \x20    ┌──────┴──────┐\n       \x20       \x20    ▼       \x20     ▼\n       \x20      ┌───────\u2500─┐   ┌───────\u2500─┐\n       \x20      │ Ollama  │   │ Docling │\n       \x20      │(11434)  │   │ (5000)  │\n       \x20      └───────\u2500─┘   └───────\u2500─┘\n\x60\x60\x60\n\n## Environment Variables\n\nCopy \x60.env.example\x60 to \x60.env\x60 and configure:\n\n\x60\x60\x60bash\n# Restate\nPORT=9082\n\n# Ollama\nOLLAMA_ENDPOINT=http://localhost:11434\n\n# Docling\nDOCLING_ENDPOINT=http://localhost:5000\n\n# AWS (optional)\nAWS_REGION=us-east-1\nAWS_ACCESS_KEY_ID=\nAWS_SECRET_ACCESS_KEY=\nAWS_S3_BUCKET_NAME=\n\x60\x60\x60\n\n## Documentation\n\n- [Best Practices](docs/best-practices.md) - Production patterns and guidelines\n- [Restate Docs](https://docs.restate.dev/) - Official Restate documentation\n"

/-- Literal string constant `AI_INDEX` from `src/scaffolding/ai.rs`. -/
def AI_INDEX : String := "// AI Framework - Re-exports from core modules\nexport * from \"@/components/ai/core/providers\";\nexport * from \"@/components/ai/core/logging\";\nexport * from \"@/components/ai/core/chunking\";\nexport * from \"@/components/ai/core/embedding\";\n"

/-- Literal string constant `CLAUDE_AI_SKILL` from `src/scaffolding/ai.rs`. -/
def CLAUDE_AI_SKILL : String := "# AI Agents Skill\n\nThis project includes a LangChain-based AI agents framework.\n\n## Available Modules\n\n### Providers (\x60src/components/ai/core/providers\x60)\n- Unified interface for Anthropic, OpenAI, Google, Mistral, Ollama\n- Model registry with cost estimation\n- Fallback chains for reliability\n\n### Logging (\x60src/components/ai/core/logging\x60)\n- LLM call logging to terminal, database, or file\n- Token counting and cost tracking\n- Usage statistics\n\n### Chunking (\x60src/components/ai/core/chunking\x60)\n- Text chunking strategies: character, token, semantic, recursive, markdown\n- Presets for different use cases\n\n### Embedding (\x60src/components/ai/core/embedding\x60)\n- Multi-provider embedding generation\n- Batch processing and semantic search\n\n## Usage\n\n\x60\x60\x60typescript\nimport \x7b createLLM, LLMLogger, TextChunker, EmbeddingGenerator \x7d from \"@/components/ai\";\n\n// Create LLM instance\nconst llm = createLLM(\x7b\n  provider: \"anthropic\",\n  model: \"claude-sonnet-4-20250514\",\n  temperature: 0.7,\n\x7d);\n\n// Log calls\nLLMLogger.getInstance().initialize(\x7b\n  destinations: [\"terminal\"]\n\x7d);\n\n// Chunk text\nconst chunker = new TextChunker(\x7b strategy: \"semantic\" \x7d);\nconst chunks = await chunker.chunk(longText);\n\n// Generate embeddings\nconst embedder = new EmbeddingGenerator(\"openai\");\nconst embeddings = await embedder.embed(texts);\n\x60\x60\x60\n\n## Environment Variables\n\nRequired for AI features:\n- \x60ANTHROPIC_API_KEY\x60 - For Claude models\n- \x60OPENAI_API_KEY\x60 - For GPT models and embeddings\n"

/-- Literal string constant `EXAMPLE_AGENT` from `src/scaffolding/ai.rs`. -/
def EXAMPLE_AGENT : String := "import \x7b createLLM, ModelRegistry \x7d from \"@/components/ai/core/providers\";\nimport \x7b LLMLogger \x7d from \"@/components/ai/core/logging\";\n\n// Initialize logging (optional)\nif (process.env.LLMLOG) \x7b\n  const logger = LLMLogger.getInstance();\n\x7d\n\n// Create LLM with Claude\nconst llm = createLLM(\x7b\n  provider: \"anthropic\",\n  model: ModelRegistry.anthropic.sonnet,\n  temperature: 0.7,\n\x7d);\n\nexport async function runAgent(input: string): Promise<string> \x7b\n  const response = await llm.invoke([\n    \x7b\n      role: \"system\",\n      content: \"You are a helpful assistant.\",\n    \x7d,\n    \x7b\n      role: \"user\",\n      content: input,\n    \x7d,\n  ]);\n\n  return response.content as string;\n\x7d\n"

/-- Literal string constant `UI_INDEX` from `src/scaffolding/ui.rs`. -/
def UI_INDEX : String := "// UI Components - Re-exports\nexport * from \"./accordion\";\nexport * from \"./alert\";\nexport * from \"./alert-dialog\";\nexport * from \"./aspect-ratio\";\nexport * from \"./badge\";\nexport * from \"./breadcrumb\";\nexport * from \"./button\";\nexport * from \"./calendar\";\nexport * from \"./card\";\nexport * from \"./chart\";\nexport * from \"./checkbox\";\nexport * from \"./collapsible\";\nexport * from \"./context-menu\";\nexport * from \"./dialog\";\nexport * from \"./dropdown-menu\";\nexport * from \"./empty\";\nexport * from \"./hover-card\";\nexport * from \"./input\";\nexport * from \"./kbd\";\nexport * from \"./label\";\nexport * from \"./pagination\";\nexport * from \"./popover\";\nexport * from \"./progress\";\nexport * from \"./radio-group\";\nexport * from \"./select\";\nexport * from \"./separator\";\nexport * from \"./sheet\";\nexport * from \"./skeleton\";\nexport * from \"./slider\";\nexport * from \"./slot\";\nexport * from \"./sonner\";\nexport * from \"./spinner\";\nexport * from \"./switch\";\nexport * from \"./table\";\nexport * from \"./tabs\";\nexport * from \"./textarea\";\nexport * from \"./toggle\";\nexport * from \"./toggle-group\";\nexport * from \"./tooltip\";\n"

/-- Literal string constant `GLOBALS_CSS_THEMED` from `src/scaffolding/ui.rs`. -/
def GLOBALS_CSS_THEMED : String := "@import \"tailwindcss\";\n\n@theme inline \x7b\n  /* Light mode colors */\n  --color-background: oklch(100% 0 0);\n  --color-foreground: oklch(14.08% 0.004 285.82);\n  --color-card: oklch(100% 0 0);\n  --color-card-foreground: oklch(14.08% 0.004 285.82);\n  --color-popover: oklch(100% 0 0);\n  --color-popover-foreground: oklch(14.08% 0.004 285.82);\n  --color-primary: oklch(20.47% 0.006 285.88);\n  --color-primary-foreground: oklch(98.51% 0 0);\n  --color-secondary: oklch(96.76% 0.001 286.38);\n  --color-secondary-foreground: oklch(20.47% 0.006 285.88);\n  --color-muted: oklch(96.76% 0.001 286.38);\n  --color-muted-foreground: oklch(55.19% 0.014 285.94);\n  --color-accent: oklch(96.76% 0.001 286.38);\n  --color-accent-foreground: oklch(20.47% 0.006 285.88);\n  --color-destructive: oklch(57.71% 0.215 27.33);\n  --color-destructive-foreground: oklch(98.51% 0 0);\n  --color-border: oklch(91.97% 0.004 286.32);\n  --color-input: oklch(91.97% 0.004 286.32);\n  --color-ring: oklch(70.9% 0.015 286.07);\n\n  /* Chart colors */\n  --color-chart-1: oklch(64.62% 0.175 250.63);\n  --color-chart-2: oklch(60% 0.118 184);\n  --color-chart-3: oklch(39.8% 0.094 257.29);\n  --color-chart-4: oklch(76.81% 0.108 82.07);\n  --color-chart-5: oklch(64.85% 0.194 16.17);\n\n  /* Radius scale */\n  --radius-sm: 0.25rem;\n  --radius-md: 0.375rem;\n  --radius-lg: 0.5rem;\n  --radius-xl: 0.75rem;\n  --radius-2xl: 1rem;\n  --radius-3xl: 1.5rem;\n  --radius-4xl: 2rem;\n\n  /* Sidebar */\n  --color-sidebar: oklch(98.51% 0 0);\n  --color-sidebar-foreground: oklch(14.08% 0.004 285.82);\n  --color-sidebar-primary: oklch(20.47% 0.006 285.88);\n  --color-sidebar-primary-foreground: oklch(98.51% 0 0);\n  --color-sidebar-accent: oklch(96.76% 0.001 286.38);\n  --color-sidebar-accent-foreground: oklch(20.47% 0.006 285.88);\n  --color-sidebar-border: oklch(91.97% 0.004 286.32);\n  --color-sidebar-ring: oklch(70.9% 0.015 286.07);\n\x7d\n\n.dark \x7b\n  --color-background: oklch(14.08% 0.004 285.82);\n  --color-foreground: oklch(98.51% 0 0);\n  --color-card: oklch(14.08% 0.004 285.82);\n  --color-card-foreground: oklch(98.51% 0 0);\n  --color-popover: oklch(14.08% 0.004 285.82);\n  --color-popover-foreground: oklch(98.51% 0 0);\n  --color-primary: oklch(98.51% 0 0);\n  --color-primary-foreground: oklch(20.47% 0.006 285.88);\n  --color-secondary: oklch(26.98% 0.006 285.89);\n  --color-secondary-foreground: oklch(98.51% 0 0);\n  --color-muted: oklch(26.98% 0.006 285.89);\n  --color-muted-foreground: oklch(70.9% 0.015 286.07);\n  --color-accent: oklch(26.98% 0.006 285.89);\n  --color-accent-foreground: oklch(98.51% 0 0);\n  --color-destructive: oklch(57.71% 0.215 27.33);\n  --color-destructive-foreground: oklch(98.51% 0 0);\n  --color-border: oklch(26.98% 0.006 285.89);\n  --color-input: oklch(26.98% 0.006 285.89);\n  --color-ring: oklch(83.84% 0.011 285.99);\n  --color-chart-1: oklch(70% 0.203 256.15);\n  --color-chart-2: oklch(65% 0.134 182);\n  --color-chart-3: oklch(98.51% 0 0);\n  --color-chart-4: oklch(80.26% 0.117 80.1);\n  --color-chart-5: oklch(70.02% 0.198 13.96);\n  --color-sidebar: oklch(14.08% 0.004 285.82);\n  --color-sidebar-foreground: oklch(98.51% 0 0);\n  --color-sidebar-primary: oklch(70% 0.203 256.15);\n  --color-sidebar-primary-foreground: oklch(98.51% 0 0);\n  --color-sidebar-accent: oklch(26.98% 0.006 285.89);\n  --color-sidebar-accent-foreground: oklch(98.51% 0 0);\n  --color-sidebar-border: oklch(26.98% 0.006 285.89);\n  --color-sidebar-ring: oklch(83.84% 0.011 285.99);\n\x7d\n\n@layer base \x7b\n  * \x7b\n    @apply border-border;\n  \x7d\n\n  body \x7b\n    @apply bg-background text-foreground;\n  \x7d\n\x7d\n"

/-- Literal string constant `USE_MOBILE_HOOK` from `src/scaffolding/ui.rs`. -/
def USE_MOBILE_HOOK : String := "import * as React from \"react\"\n\nconst MOBILE_BREAKPOINT = 768\n\nexport function useIsMobile() \x7b\n  const [isMobile, setIsMobile] = React.useState<boolean | undefined>(undefined)\n\n  React.useEffect(() => \x7b\n    const mql = window.matchMedia(\x60(max-width: $\x7bMOBILE_BREAKPOINT - 1\x7dpx)\x60)\n    const onChange = () => \x7b\n      setIsMobile(window.innerWidth < MOBILE_BREAKPOINT)\n    \x7d\n    mql.addEventListener(\"change\", onChange)\n    setIsMobile(window.innerWidth < MOBILE_BREAKPOINT)\n    return () => mql.removeEventListener(\"change\", onChange)\n  \x7d, [])\n\n  return !!isMobile\n\x7d\n"

/-- Literal string constant `PRISMA_AUTH_MODELS` from `src/scaffolding/better_auth.rs`. -/
def PRISMA_AUTH_MODELS : String := "\n// =======\x3d=======\x3d=======\x3d=======\x3d=======\x3d=======\x3d=======\x3d=======\x3d=======\x3d====\n// Better Auth Models\n// =======\x3d=======\x3d=======\x3d=======\x3d=======\x3d=======\x3d=======\x3d=======\x3d=======\x3d====\n\nmodel User \x7b\n  id       \x20    String    @id @default(cuid())\n  name       \x20  String?\n  email       \x20 String    @unique\n  emailVerified DateTime?\n  image       \x20 String?\n  createdAt     DateTime  @default(now())\n  updatedAt     DateTime  @updatedAt\n\n  sessions Session[]\n  accounts Account[]\n\x7d\n\nmodel Session \x7b\n  id       \x20String   @id @default(cuid())\n  expiresAt DateTime\n  token     String   @unique\n  ipAddress String?\n  userAgent String?\n  userId    String\n  user      User     @relation(fields: [userId], references: [id], onDelete: Cascade)\n\n  createdAt DateTime @default(now())\n  updatedAt DateTime @updatedAt\n\x7d\n\nmodel Account \x7b\n  id       \x20       \x20    String  @id @default(cuid())\n  accountId       \x20     String\n  providerId       \x20    String\n  userId       \x20       \x20String\n  user       \x20       \x20  User    @relation(fields: [userId], references: [id], onDelete: Cascade)\n  accessToken       \x20   String?\n  refreshToken       \x20  String?\n  idToken       \x20       String?\n  accessTokenExpiresAt  DateTime?\n  refreshTokenExpiresAt DateTime?\n  scope       \x20       \x20 String?\n  password       \x20      String?\n\n  createdAt DateTime @default(now())\n  updatedAt DateTime @updatedAt\n\n  @@unique([providerId, accountId])\n\x7d\n\nmodel Verification \x7b\n  id       \x20 String   @id @default(cuid())\n  identifier String\n  value      String\n  expiresAt  DateTime\n  createdAt  DateTime @default(now())\n  updatedAt  DateTime @updatedAt\n\n  @@unique([identifier, value])\n\x7d\n"

/-- Dependency list `ai_deps` from `src/commands/add.rs`. -/
def ai_deps : List (String × String) := [("@langchain/anthropic", "^1.3.18"), ("@langchain/core", "^1.1.26"), ("@langchain/openai", "^1.2.8"), ("langchain", "^1.2.25"), ("zod", "^4.3.6"), ("winston", "^3.19.0"), ("pg", "^8.18.0")]

/-- Dependency list `ui_deps` from `src/commands/add.rs`. -/
def ui_deps : List (String × String) := [("@floating-ui/react", "^0.27.18"), ("class-variance-authority", "^0.7.1"), ("clsx", "^2.1.1"), ("date-fns", "^4.1.0"), ("lucide-react", "^0.574.0"), ("react-day-picker", "^9.13.2"), ("recharts", "^2.15.4"), ("sonner", "^2.0.7"), ("tailwind-merge", "^3.4.1")]

/-- Dependency list `cmd_deps` from `src/commands/add.rs`. -/
def cmd_deps : List (String × String) := [("@langchain/anthropic", "^1.3.18"), ("@langchain/cohere", "^1.0.2"), ("@langchain/core", "^1.1.26"), ("@langchain/google-genai", "^2.1.19"), ("@langchain/mistralai", "^1.0.4"), ("@langchain/ollama", "^1.2.3"), ("@langchain/openai", "^1.2.8"), ("@langchain/textsplitters", "^1.0.1"), ("langchain", "^1.2.25"), ("winston", "^3.19.0"), ("pg", "^8.18.0"), ("server-only", "^0.0.1"), ("react-markdown", "^10.1.0"), ("remark-gfm", "^4.0.1"), ("@floating-ui/react", "^0.27.18"), ("sonner", "^2.0.7"), ("class-variance-authority", "^0.7.1"), ("date-fns", "^4.1.0"), ("pdfmake", "^0.3.4"), ("exceljs", "^4.4.0"), ("pptxgenjs", "^4.0.1"), ("@aws-sdk/client-s3", "^3.993.0"), ("@aws-sdk/s3-request-presigner", "^3.993.0")]

/-- Dependency list `cmd_dev_deps` from `src/commands/add.rs`. -/
def cmd_dev_deps : List (String × String) := [("@types/pdfmake", "^0.3.1"), ("@types/pg", "^8.16.0")]

/-- String `generator-block match` used by `modify_prisma_schema` in `src/scaffolding/cmd.rs`. -/
def genPat : String := "generator client \x7b\n  provider = \"prisma-client-js\"\n\x7d"

/-- String `generator-block replacement` used by `modify_prisma_schema` in `src/scaffolding/cmd.rs`. -/
def genRep : String := "generator client \x7b\n  provider       \x20= \"prisma-client-js\"\n  previewFeatures = [\"postgresqlExtensions\"]\n\x7d"

/-- String `datasource-block match` used by `modify_prisma_schema` in `src/scaffolding/cmd.rs`. -/
def dsPat : String := "datasource db \x7b\n  provider = \"postgresql\"\n  url      = env(\"DATABASE_URL\")\n\x7d"

/-- String `datasource-block replacement` used by `modify_prisma_schema` in `src/scaffolding/cmd.rs`. -/
def dsRep : String := "datasource db \x7b\n  provider   = \"postgresql\"\n  url       \x20= env(\"DATABASE_URL\")\n  extensions = [vector]\n\x7d"

/-- String `User-model guard marker` used by `modify_prisma_schema` in `src/scaffolding/cmd.rs`. -/
def userMarker : String := "model User \x7b"

/-- String `User-model match` used by `modify_prisma_schema` in `src/scaffolding/cmd.rs`. -/
def userPat : String := "  sessions Session[]\n  accounts Account[]\n\x7d"

/-- String `User-model replacement` used by `modify_prisma_schema` in `src/scaffolding/cmd.rs`. -/
def userRep : String := "  sessions Session[]\n  accounts Account[]\n\n  chatThreads     ChatThread[]\n  aiTableSessions AITableSession[]\n  aiDocSessions   AIDocSession[]\n\x7d"
/-!
## Dependency-manifest merging

Embedding of `merge_dependencies` (`src/utils/npm.rs`, lines 52-75) and of
the pure cores of `update_package_json_ai` / `update_package_json_ui` /
`update_package_json_cmd` (`src/commands/add.rs`).
-/

/-- Insert a binding only when the key is absent; mirrors the
`if !deps.contains_key(name) { deps.insert(...) }` pattern. -/
def insertAbsent {κ α : Type} [DecidableEq κ] (g : List (κ × α)) (q : κ) (w : α) : List (κ × α) :=
  match alookup g q with
  | some _ => g
  | none => g ++ [(q, w)]

/-- Merge a list of `(name, version)` pairs into a dependency group,
inserting only the names that are absent (`merge_dependencies` loop body). -/
def mergeGroup (g : Fields) (adds : List (String × String)) : Fields :=
  adds.foldl (fun acc p => insertAbsent acc p.1 (Json.str p.2)) g

/-- One group update of `merge_dependencies`: if `fs` has an object at `key`,
merge `adds` into it in place; otherwise (`if let Some(..)` fails) leave `fs`
unchanged. -/
def depGroupMerge (fs : Fields) (key : String) (adds : List (String × String)) : Fields :=
  match alookup fs key with
  | some (Json.obj g) => ains fs key (Json.obj (mergeGroup g adds))
  | _ => fs

/-- `merge_dependencies` from `src/utils/npm.rs`: merge `deps` into the
`dependencies` group and `devDeps` into the `devDependencies` group of
`base`, skipping silently any group that is absent or not an object
(and doing nothing at all when `base` itself is not an object, since
`base.get_mut` then returns `None`). -/
def merge_dependencies (base : Json) (deps devDeps : List (String × String)) : Json :=
  match base with
  | Json.obj fs => Json.obj (depGroupMerge (depGroupMerge fs "dependencies" deps) "devDependencies" devDeps)
  | _ => base

/-- Value produced by serde_json's `IndexMut` for a key of an object:
the stored value, or `Null` for an absent key (which `index_mut` inserts). -/
def lookupOrNull (fs : Fields) (k : String) : Json :=
  match alookup fs k with
  | some v => v
  | none => Json.null

/-- Test for the object constructor (`Value::as_object` succeeding). -/
def isObjB : Json → Bool
  | Json.obj _ => true
  | _ => false

/-- Error message of the `.context(...)` call in the `update_package_json_*`
helpers of `src/commands/add.rs`. -/
def missingDepsMsg : String := "Invalid package.json: missing dependencies"

/-- Pure core of `update_package_json_ai` (`src/commands/add.rs`, lines
82-112), acting on the fields of an already-parsed `package.json` object:
require an object at `"dependencies"` (else the `.context` error), then
insert the absent AI dependencies. -/
def update_package_json_ai_fields (fs : Fields) : Except (List Char) Fields :=
  match lookupOrNull fs "dependencies" with
  | Json.obj g => Except.ok (ains fs "dependencies" (Json.obj (mergeGroup g ai_deps)))
  | _ => Except.error missingDepsMsg.data

/-- Pure core of `update_package_json_ui` (`src/commands/add.rs`, lines 114-146). -/
def update_package_json_ui_fields (fs : Fields) : Except (List Char) Fields :=
  match lookupOrNull fs "dependencies" with
  | Json.obj g => Except.ok (ains fs "dependencies" (Json.obj (mergeGroup g ui_deps)))
  | _ => Except.error missingDepsMsg.data

/-- Pure core of `update_package_json_cmd` (`src/commands/add.rs`, lines
148-211).  After the runtime-dependency merge the code evaluates
`pkg["devDependencies"]`: serde_json's `index_mut` inserts `Null` when the
key is absent, and the dev-dependency merge then runs only `if let
Some(dev_deps) = ...as_object_mut()` — a silent skip for a non-object
value. -/
def update_package_json_cmd_fields (fs : Fields) : Except (List Char) Fields :=
  match lookupOrNull fs "dependencies" with
  | Json.obj g =>
      let fs1 := ains fs "dependencies" (Json.obj (mergeGroup g cmd_deps))
      let fs2 := if (alookup fs1 "devDependencies").isSome then fs1
                 else fs1 ++ [("devDependencies", Json.null)]
      match lookupOrNull fs2 "devDependencies" with
      | Json.obj h => Except.ok (ains fs2 "devDependencies" (Json.obj (mergeGroup h cmd_dev_deps)))
      | _ => Except.ok fs2
  | _ => Except.error missingDepsMsg.data

/-!
## Message-bundle merging

Embedding of `merge_translations` (`src/scaffolding/cmd.rs`, lines 122-144).
-/

/-- Overwrite-fold: insert every binding of `l` into `m`, replacing values of
keys that already exist (the `base_obj.insert(key.clone(), value.clone())`
loop of `merge_translations`). -/
def overwriteFold {κ α : Type} [DecidableEq κ] (m : List (κ × α)) (l : List (κ × α)) : List (κ × α) :=
  l.foldl (fun acc p => ains acc p.1 p.2) m

/-- Pure core of `merge_translations`: when both documents are objects,
insert every top-level binding of `additions` into `base` (namespace-level
overwrite); otherwise the `if let (Some(..), Some(..))` match fails and
`base` is left unchanged. -/
def merge_translations_value (base additions : Json) : Json :=
  match base, additions with
  | Json.obj bfs, Json.obj afs => Json.obj (overwriteFold bfs afs)
  | _, _ => base

/-!
## Schema text patching

Embedding of `modify_prisma_schema` (`src/scaffolding/cmd.rs`, lines 73-116)
and `append_to_prisma_schema` (`src/scaffolding/better_auth.rs`, lines 21-27).
Text is `List Char`; `replaceAll` mirrors Rust's `str::replace` (replace all
non-overlapping occurrences, scanning left to right) for the non-empty
patterns used by the code.
-/

/-- `startsB p s`: `p` is a leading segment of `s` (Rust `str::starts_with`). -/
def startsB : List Char → List Char → Bool
  | [], _ => true
  | a :: ps, b :: ss => a == b && startsB ps ss
  | _ :: _, [] => false

/-- `occursB p s`: `p` occurs as a contiguous segment of `s` (Rust `str::contains`). -/
def occursB (p : List Char) : List Char → Bool
  | [] => startsB p []
  | s@(_ :: rest) => startsB p s || occursB p rest

/-- Fuelled scan of `str::replace`: at each position, if the pattern starts
here, emit the replacement and skip the pattern, else keep one character.
With `fuel ≥ s.length` and a non-empty pattern the fuel never runs out. -/
def replaceFuel (p r : List Char) : Nat → List Char → List Char
  | 0, s => s
  | _ + 1, [] => []
  | fuel + 1, c :: cs =>
      if startsB p (c :: cs) then r ++ replaceFuel p r fuel (List.drop p.length (c :: cs))
      else c :: replaceFuel p r fuel cs

/-- Rust `s.replace(p, r)` for the non-empty patterns used by the code. -/
def replaceAll (p r s : List Char) : List Char :=
  replaceFuel p r s.length s

/-- `modify_prisma_schema` on the schema text: the generator-block and
datasource-block literal replacements, then — only when the text contains
`"model User {"` — the User back-reference replacement, then the
unconditional `content.push_str(CMD_PRISMA_MODELS)`. -/
def modify_prisma_schema_text (content : List Char) : List Char :=
  let c1 := replaceAll genPat.data genRep.data content
  let c2 := replaceAll dsPat.data dsRep.data c1
  let c3 := if occursB userMarker.data c2 then replaceAll userPat.data userRep.data c2 else c2
  c3 ++ CMD_PRISMA_MODELS.data

/-- Modelled from the spec (section 4.2 `applyFragment`): apply each of the
three `(match, replacement)` pairs of the schema transformation as a literal
substring replacement, in the given order and unconditionally, then append
the fragment block.  Used only to compare the spec's description with
`modify_prisma_schema_text`. -/
def spec_apply_fragment (content : List Char) : List Char :=
  replaceAll userPat.data userRep.data
    (replaceAll dsPat.data dsRep.data (replaceAll genPat.data genRep.data content))
  ++ CMD_PRISMA_MODELS.data

/-- `append_to_prisma_schema` (`src/scaffolding/better_auth.rs`) on the
schema text: unconditionally append the Better Auth models block. -/
def append_to_prisma_schema_text (content : List Char) : List Char :=
  content ++ PRISMA_AUTH_MODELS.data
/-!
## File-system model of the `add` workflow

`commands::add::execute` and the scaffolding routines it dispatches to are
modelled over an explicit file-system state: an association list from paths
(relative to the project root, as the `add` command always runs with
project path `"."`) to file contents.  A JSON file is stored in parsed form
(`Entry.jsonF`), other files as text (`Entry.textF`); `serde_json`
round-tripping is the identity in this model.  Directory creation
(`create_dir_all`) has no observable effect on the file map and is omitted.
Embedded template contents (`rust_embed` data, not part of the sources) are
an explicit parameter `emb`, a list of `(template path, content)` pairs.
-/

/-- Content of one file in the model. -/
inductive Entry where
  | textF (s : List Char)
  | jsonF (j : Json)

/-- File-system state: map from path to content. -/
abbrev FSt := List (List Char × Entry)

/-- `utils::fs::write_file` (and direct `fs::write`): create or replace a file. -/
def write_file (fs : FSt) (path : List Char) (content : List Char) : FSt :=
  ains fs path (Entry.textF content)

/-- Path of the project manifest checked by `add::execute`. -/
def pkgPath : List Char := "package.json".data

/-- Drop a leading segment when it matches (`str::strip_prefix` with an
`unwrap_or` fallback to the full path, as in `copy_embedded_dir`). -/
def dropLead (pre p : List Char) : List Char :=
  if startsB pre p then List.drop pre.length p else p

/-- `str::trim_start_matches('/')`. -/
def trimSlashes (p : List Char) : List Char := p.dropWhile (· == '/')

/-- `templates::embedded::copy_embedded_dir`: for every embedded file whose
path starts with `pre`, write its content under `dest`, at the path obtained
by stripping `pre` and leading slashes and joining onto `dest`. -/
def copy_embedded_dir (emb : List (List Char × List Char)) (pre dest : List Char) (fs : FSt) : FSt :=
  (emb.filter (fun f => startsB pre f.1)).foldl
    (fun acc f => ains acc (dest ++ '/' :: trimSlashes (dropLead pre f.1)) (Entry.textF f.2)) fs

/-- `scaffolding::ai::scaffold "."` as a file-system transformer. -/
def ai_scaffold (emb : List (List Char × List Char)) (fs : FSt) : FSt :=
  let fs := copy_embedded_dir emb "ai/core".data "src/components/ai/core".data fs
  let fs := write_file fs "src/components/ai/index.ts".data AI_INDEX.data
  let fs := write_file fs ".claude/skills/ai.md".data CLAUDE_AI_SKILL.data
  write_file fs "src/components/ai/agents/example.ts".data EXAMPLE_AGENT.data

/-- `scaffolding::ui::scaffold "."` as a file-system transformer. -/
def ui_scaffold (emb : List (List Char × List Char)) (fs : FSt) : FSt :=
  let fs := copy_embedded_dir emb "ui/".data "src/components/ui".data fs
  let fs := write_file fs "src/app/globals.css".data GLOBALS_CSS_THEMED.data
  let fs := write_file fs "src/components/ui/index.ts".data UI_INDEX.data
  write_file fs "src/utils/use-mobile.ts".data USE_MOBILE_HOOK.data

/-- `scaffolding::restate::scaffold "."` as a file-system transformer: copy
the embedded `restate/` templates into `restate/` and write the README. -/
def restate_scaffold (emb : List (List Char × List Char)) (fs : FSt) : FSt :=
  let fs := copy_embedded_dir emb "restate/".data "restate".data fs
  write_file fs "restate/README.md".data RESTATE_README.data

/-- `modify_prisma_schema` at the file level: read `prisma/schema.prisma`
(an error when absent; a parsed-JSON entry is not readable schema text in
this model), transform the text, write it back. -/
def modify_prisma_schema_fs (fs : FSt) : Except (List Char) FSt :=
  match alookup fs "prisma/schema.prisma".data with
  | some (Entry.textF t) =>
      Except.ok (write_file fs "prisma/schema.prisma".data (modify_prisma_schema_text t))
  | _ => Except.error "failed to read prisma/schema.prisma".data

/-- `merge_translations` at the file level: read and parse the bundle at
`path` (errors mirror `read_to_string` / `serde_json::from_str` failures),
merge `cmdJson` into it, write the result back. -/
def merge_translations_fs (fs : FSt) (path : List Char) (cmdJson : Json) : Except (List Char) FSt :=
  match alookup fs path with
  | some (Entry.jsonF j) => Except.ok (ains fs path (Entry.jsonF (merge_translations_value j cmdJson)))
  | some (Entry.textF _) => Except.error "failed to parse translation file".data
  | none => Except.error "failed to read translation file".data

/-- `scaffolding::cmd::scaffold "."`: template copies and file writes, the
Prisma-schema patch and the two translation merges, threading the
file-system state so that an early failure keeps the writes already made. -/
def cmd_scaffold (emb : List (List Char × List Char)) (fs : FSt) : Except (List Char) Unit × FSt :=
  let fs := copy_embedded_dir emb "cmd/components/".data "src/components".data fs
  let fs := copy_embedded_dir emb "cmd/lib/".data "src/lib".data fs
  let fs := copy_embedded_dir emb "cmd/server/".data "src/server".data fs
  let fs := write_file fs "src/server/api/trpc.ts".data TRPC_INIT_WITH_AUTH.data
  let fs := write_file fs "src/server/api/root.ts".data TRPC_ROOT_WITH_CMD.data
  match modify_prisma_schema_fs fs with
  | Except.error e => (Except.error e, fs)
  | Except.ok fs =>
  match merge_translations_fs fs "messages/en.json".data CMD_MESSAGES_EN with
  | Except.error e => (Except.error e, fs)
  | Except.ok fs =>
  match merge_translations_fs fs "messages/de.json".data CMD_MESSAGES_DE with
  | Except.error e => (Except.error e, fs)
  | Except.ok fs =>
  let fs := write_file fs "src/app/_components/CommandIslandLayout.tsx".data CMD_LAYOUT_WRAPPER.data
  let fs := write_file fs "src/app/layout.tsx".data APP_LAYOUT_WITH_CMD.data
  let fs := write_file fs "src/components/layout/PageGuide.tsx".data PAGE_GUIDE_STUB.data
  let fs := write_file fs ".claude/skills/commandisland.md".data CLAUDE_CMD_SKILL.data
  (Except.ok (), fs)

/-- Read, update and rewrite `package.json` with a fields-level updater
(`update_package_json_*`).  An absent or unparsable manifest is an error;
a manifest whose root is not a JSON object makes the Rust code panic at
`pkg["dependencies"]`, modelled as an error result with no write.  (One
root shape differs in its message only: serde_json's `IndexMut` coerces a
`null` root to an empty object, so the Rust code then fails with the
`.context` missing-dependencies error rather than panicking; either way
the outcome on this branch is an error with no write, and no claim
exercises it.) -/
def update_pkg_fs (upd : Fields → Except (List Char) Fields) (fs : FSt) :
    Except (List Char) Unit × FSt :=
  match alookup fs pkgPath with
  | some (Entry.jsonF (Json.obj f)) =>
      match upd f with
      | Except.ok f2 => (Except.ok (), ains fs pkgPath (Entry.jsonF (Json.obj f2)))
      | Except.error e => (Except.error e, fs)
  | some (Entry.jsonF _) => (Except.error "panicked: package.json root is not an object".data, fs)
  | some (Entry.textF _) => (Except.error "failed to parse package.json".data, fs)
  | none => (Except.error "failed to read package.json".data, fs)

/-- Success test for `Except` results (`Result::is_ok`). -/
def exceptOk {ε α : Type} : Except ε α → Bool
  | Except.ok _ => true
  | Except.error _ => false

/-- Precondition error of `add::execute` when no `package.json` exists. -/
def noPkgMsg : String := "No package.json found. Run this command from the root of your project."

/-- Dispatch error of `add::execute` for an identifier outside the valid set. -/
def unknownExtMsg (ext : String) : List Char :=
  "Unknown extension: ".data ++ ext.data ++ ". Use \x27ai\x27, \x27ui\x27, \x27restate\x27, or \x27cmd\x27.".data

/-- `commands::add::execute`: require `package.json` to exist, then dispatch
on the extension identifier; the fallback arm rejects unknown identifiers.
The result pairs the command outcome with the final file-system state. -/
def executeFS (emb : List (List Char × List Char)) (ext : String) (fs : FSt) :
    Except (List Char) Unit × FSt :=
  if (alookup fs pkgPath).isNone then (Except.error noPkgMsg.data, fs)
  else if ext = "ai" then update_pkg_fs update_package_json_ai_fields (ai_scaffold emb fs)
  else if ext = "ui" then update_pkg_fs update_package_json_ui_fields (ui_scaffold emb fs)
  else if ext = "restate" then (Except.ok (), restate_scaffold emb fs)
  else if ext = "cmd" then
    match cmd_scaffold emb fs with
    | (Except.ok _, fs1) => update_pkg_fs update_package_json_cmd_fields fs1
    | (Except.error e, fs1) => (Except.error e, fs1)
  else (Except.error (unknownExtMsg ext), fs)
/-!
## Association-list lemmas

Basic facts about `alookup`, `ains` and `insertAbsent`, shared by the
theorems below.
-/

theorem alookup_ains {κ α : Type} [DecidableEq κ] (m : List (κ × α)) (key : κ) (w : α) (q : κ) :
    alookup (ains m key w) q = if q = key then some w else alookup m q := by
  induction m with
  | nil => simp [ains, alookup]
  | cons p rest ih =>
    obtain ⟨a, b⟩ := p
    by_cases hk : key = a
    · subst hk
      by_cases hq : q = key <;> simp [ains, alookup, hq]
    · by_cases hq : q = a
      · subst hq
        have hqk : ¬ q = key := fun h => hk h.symm
        simp [ains, alookup, hk, hqk]
      · simp [ains, alookup, hk, hq, ih]

theorem ains_same {κ α : Type} [DecidableEq κ] {m : List (κ × α)} {key : κ} {w : α}
    (h : alookup m key = some w) : ains m key w = m := by
  induction m with
  | nil => simp [alookup] at h
  | cons p rest ih =>
    obtain ⟨a, b⟩ := p
    by_cases hk : key = a
    · subst hk
      simp [alookup] at h
      simp [ains, h]
    · simp [alookup, hk] at h
      simp [ains, hk, ih h]

theorem alookup_append {κ α : Type} [DecidableEq κ] (a b : List (κ × α)) (q : κ) :
    alookup (a ++ b) q = oor (alookup a q) (alookup b q) := by
  induction a with
  | nil => simp [alookup, oor]
  | cons p t ih =>
    obtain ⟨x, y⟩ := p
    by_cases hq : q = x <;> simp [alookup, hq, oor, ih]

theorem ains_append_left {κ α : Type} [DecidableEq κ] {a : List (κ × α)} (b : List (κ × α))
    {key : κ} (h : (alookup a key).isSome) (w : α) :
    ains (a ++ b) key w = ains a key w ++ b := by
  induction a with
  | nil => simp [alookup] at h
  | cons p t ih =>
    obtain ⟨x, y⟩ := p
    by_cases hk : key = x
    · simp [ains, hk]
    · simp [alookup, hk] at h
      simp [ains, hk, ih h]

theorem ains_of_none {κ α : Type} [DecidableEq κ] {m : List (κ × α)} {key : κ}
    (h : alookup m key = none) (w : α) : ains m key w = m ++ [(key, w)] := by
  induction m with
  | nil => simp [ains]
  | cons p t ih =>
    obtain ⟨x, y⟩ := p
    by_cases hk : key = x
    · subst hk; simp [alookup] at h
    · simp [alookup, hk] at h
      simp [ains, hk, ih h]

theorem ains_append_new {κ α : Type} [DecidableEq κ] {n : List (κ × α)} {key : κ}
    (h : alookup n key = none) (w v : α) :
    ains (n ++ [(key, w)]) key v = n ++ [(key, v)] := by
  induction n with
  | nil => simp [ains]
  | cons p t ih =>
    obtain ⟨x, y⟩ := p
    by_cases hk : key = x
    · subst hk; simp [alookup] at h
    · simp [alookup, hk] at h
      simp [ains, hk, ih h]

theorem ains_ains_same {κ α : Type} [DecidableEq κ] (m : List (κ × α)) (key : κ) (v w : α) :
    ains (ains m key v) key w = ains m key w := by
  induction m with
  | nil => simp [ains]
  | cons p t ih =>
    obtain ⟨x, y⟩ := p
    by_cases hk : key = x <;> simp [ains, hk, ih]

theorem ains_comm {κ α : Type} [DecidableEq κ] {m : List (κ × α)} {k k' : κ}
    (hne : k' ≠ k) (hk : (alookup m k).isSome) (v w : α) :
    ains (ains m k v) k' w = ains (ains m k' w) k v := by
  induction m with
  | nil => simp [alookup] at hk
  | cons p t ih =>
    obtain ⟨a, b⟩ := p
    by_cases h1 : k = a
    · subst h1
      have h2 : ¬ k' = k := hne
      simp [ains, h2]
    · simp [alookup, h1] at hk
      by_cases h2 : k' = a
      · subst h2
        simp [ains, h1]
      · simp [ains, h1, h2, ih hk]

theorem insertAbsent_of_isSome {κ α : Type} [DecidableEq κ] {g : List (κ × α)} {key : κ}
    (h : (alookup g key).isSome) (w : α) : insertAbsent g key w = g := by
  unfold insertAbsent
  cases hx : alookup g key with
  | none => rw [hx] at h; simp at h
  | some v => rfl

theorem alookup_insertAbsent_pres {κ α : Type} [DecidableEq κ] {g : List (κ × α)} {q : κ} {v : α}
    (key : κ) (w : α) (h : alookup g q = some v) :
    alookup (insertAbsent g key w) q = some v := by
  unfold insertAbsent
  cases hx : alookup g key with
  | none => rw [alookup_append, h]; rfl
  | some u => exact h

theorem insertAbsent_isSome_self {κ α : Type} [DecidableEq κ] (g : List (κ × α)) (key : κ) (w : α) :
    (alookup (insertAbsent g key w) key).isSome := by
  unfold insertAbsent
  cases hx : alookup g key with
  | none => rw [alookup_append, hx]; simp [alookup, oor]
  | some u => simp [hx]

theorem alookup_insertAbsent_isSome {κ α : Type} [DecidableEq κ] {g : List (κ × α)} {q : κ}
    (key : κ) (w : α) (h : (alookup g q).isSome) :
    (alookup (insertAbsent g key w) q).isSome := by
  cases hx : alookup g q with
  | none => rw [hx] at h; simp at h
  | some v => rw [alookup_insertAbsent_pres key w hx]; rfl

theorem alookup_insertAbsent_none {κ α : Type} [DecidableEq κ] {g : List (κ × α)} {q key : κ}
    (hne : q ≠ key) (w : α) (h : alookup g q = none) :
    alookup (insertAbsent g key w) q = none := by
  unfold insertAbsent
  cases hx : alookup g key with
  | none => rw [alookup_append, h]; simp [alookup, hne, oor]
  | some u => exact h
/-!
## Overwrite-fold lemmas (message-bundle merge)
-/

theorem overF_cons {κ α : Type} [DecidableEq κ] (m : List (κ × α)) (p : κ × α) (l : List (κ × α)) :
    overwriteFold m (p :: l) = overwriteFold (ains m p.1 p.2) l := rfl

theorem overF_snoc {κ α : Type} [DecidableEq κ] (m : List (κ × α)) (l : List (κ × α)) (p : κ × α) :
    overwriteFold m (l ++ [p]) = ains (overwriteFold m l) p.1 p.2 := by
  unfold overwriteFold
  rw [List.foldl_append]
  rfl

theorem overF_isSome_pres {κ α : Type} [DecidableEq κ] {q : κ} (l : List (κ × α))
    {m : List (κ × α)} (h : (alookup m q).isSome) :
    (alookup (overwriteFold m l) q).isSome := by
  induction l generalizing m with
  | nil => exact h
  | cons p t ih =>
    rw [overF_cons]
    refine ih ?_
    rw [alookup_ains]
    by_cases hq : q = p.1 <;> simp [hq, h]

theorem overF_isSome_of_mem {κ α : Type} [DecidableEq κ] {q : κ} {l : List (κ × α)}
    (h : q ∈ l.map Prod.fst) (m : List (κ × α)) :
    (alookup (overwriteFold m l) q).isSome := by
  induction l generalizing m with
  | nil => simp at h
  | cons p t ih =>
    rw [overF_cons]
    rcases List.mem_cons.mp h with h1 | h2
    · refine overF_isSome_pres t ?_
      rw [alookup_ains, h1]
      simp
    · exact ih h2 _

theorem overF_ains_absorb {κ α : Type} [DecidableEq κ] {k : κ} {l : List (κ × α)}
    (hmem : k ∈ l.map Prod.fst) :
    ∀ (m : List (κ × α)), (alookup m k).isSome →
      ∀ v, overwriteFold (ains m k v) l = overwriteFold m l := by
  induction l with
  | nil => intro m _ v; simp at hmem
  | cons p t ih =>
    intro m hk v
    obtain ⟨a, b⟩ := p
    rw [overF_cons, overF_cons]
    by_cases h1 : k = a
    · subst h1
      rw [show (ains (ains m k v) k b) = ains m k b from ains_ains_same m k v b]
    · rcases List.mem_cons.mp hmem with h2 | h2
    -- h2 : k = a contradicts h1 in the first branch
      · exact absurd h2 h1
      · have hcomm : ains (ains m k v) a b = ains (ains m a b) k v :=
          ains_comm (fun h => h1 h.symm) hk v b
        rw [hcomm]
        refine ih h2 (ains m a b) ?_ v
        rw [alookup_ains]
        by_cases hka : k = a
        · exact absurd hka h1
        · simp [hka, hk]

theorem overF_ains_new {κ α : Type} [DecidableEq κ] {k : κ} {l : List (κ × α)}
    (hmem : k ∉ l.map Prod.fst) :
    ∀ (m : List (κ × α)), (alookup m k).isSome →
      ∀ v, overwriteFold (ains m k v) l = ains (overwriteFold m l) k v := by
  induction l with
  | nil => intro m _ v; rfl
  | cons p t ih =>
    intro m hk v
    obtain ⟨a, b⟩ := p
    have h1 : k ≠ a := fun h => hmem (by simp [h])
    have h2 : k ∉ t.map Prod.fst := fun h => hmem (by simp [h])
    rw [overF_cons, overF_cons]
    have hcomm : ains (ains m k v) a b = ains (ains m a b) k v :=
      ains_comm (fun h => h1 h.symm) hk v b
    rw [hcomm]
    refine ih h2 (ains m a b) ?_ v
    rw [alookup_ains]
    simp [h1, hk]

theorem overF_append_right {κ α : Type} [DecidableEq κ] {l : List (κ × α)} :
    ∀ {n : List (κ × α)}, (∀ p ∈ l, (alookup n p.1).isSome) →
      ∀ (d : List (κ × α)), overwriteFold (n ++ d) l = overwriteFold n l ++ d := by
  induction l with
  | nil => intro n _ d; rfl
  | cons p t ih =>
    intro n h d
    rw [overF_cons, overF_cons]
    rw [ains_append_left d (h p (by simp)) p.2]
    refine ih ?_ d
    intro p' hp'
    rw [alookup_ains]
    by_cases hq : p'.1 = p.1
    · simp [hq]
    · simp [hq]
      exact h p' (by simp [hp'])

theorem overF_idem {κ α : Type} [DecidableEq κ] (l m : List (κ × α)) :
    overwriteFold (overwriteFold m l) l = overwriteFold m l := by
  induction l using List.reverseRecOn generalizing m with
  | nil => rfl
  | append_singleton l p ih =>
    obtain ⟨k, v⟩ := p
    rw [overF_snoc m l ⟨k, v⟩]
    by_cases hk : (alookup (overwriteFold m l) k).isSome
    · by_cases hmem : k ∈ l.map Prod.fst
      · rw [overF_snoc]
        rw [overF_ains_absorb hmem _ hk v]
        rw [ih]
      · rw [overF_snoc]
        rw [overF_ains_new hmem _ hk v]
        rw [ih]
        exact ains_ains_same _ k v v
    · have hmem : k ∉ l.map Prod.fst := fun h => hk (overF_isSome_of_mem h m)
      have hnone : alookup (overwriteFold m l) k = none := by
        cases hx : alookup (overwriteFold m l) k with
        | none => rfl
        | some u => rw [hx] at hk; simp at hk
      rw [ains_of_none hnone v]
      rw [overF_snoc]
      have hall : ∀ p ∈ l, (alookup (overwriteFold m l) p.1).isSome := by
        intro p hp
        exact overF_isSome_of_mem (List.mem_map_of_mem Prod.fst hp) m
      rw [overF_append_right hall [(k, v)]]
      rw [ih]
      rw [ains_append_new hnone v v]

/-!
## Merge-group lemmas (dependency merge)
-/

theorem mergeGroup_cons (g : Fields) (p : String × String) (d : List (String × String)) :
    mergeGroup g (p :: d) = mergeGroup (insertAbsent g p.1 (Json.str p.2)) d := rfl

theorem alookup_mergeGroup_pres {g : Fields} {q : String} {v : Json}
    (d : List (String × String)) (h : alookup g q = some v) :
    alookup (mergeGroup g d) q = some v := by
  induction d generalizing g with
  | nil => exact h
  | cons p t ih =>
    rw [mergeGroup_cons]
    exact ih (alookup_insertAbsent_pres p.1 (Json.str p.2) h)

theorem mergeGroup_isSome_pres {g : Fields} {q : String}
    (d : List (String × String)) (h : (alookup g q).isSome) :
    (alookup (mergeGroup g d) q).isSome := by
  induction d generalizing g with
  | nil => exact h
  | cons p t ih =>
    rw [mergeGroup_cons]
    exact ih (alookup_insertAbsent_isSome p.1 (Json.str p.2) h)

theorem mergeGroup_isSome_of_mem {q : String} {d : List (String × String)}
    (h : q ∈ d.map Prod.fst) (g : Fields) :
    (alookup (mergeGroup g d) q).isSome := by
  induction d generalizing g with
  | nil => simp at h
  | cons p t ih =>
    rw [mergeGroup_cons]
    rcases List.mem_cons.mp h with h1 | h2
    · exact mergeGroup_isSome_pres t (h1 ▸ insertAbsent_isSome_self g p.1 (Json.str p.2))
    · exact ih h2 _

theorem mergeGroup_noop {g : Fields} {d : List (String × String)}
    (h : ∀ p ∈ d, (alookup g p.1).isSome) : mergeGroup g d = g := by
  induction d with
  | nil => rfl
  | cons p t ih =>
    rw [mergeGroup_cons]
    rw [insertAbsent_of_isSome (h p (by simp)) (Json.str p.2)]
    exact ih (fun p' hp' => h p' (by simp [hp']))

theorem mergeGroup_idem (g : Fields) (d : List (String × String)) :
    mergeGroup (mergeGroup g d) d = mergeGroup g d :=
  mergeGroup_noop (fun p hp =>
    mergeGroup_isSome_of_mem (List.mem_map_of_mem Prod.fst hp) g)

theorem alookup_mergeGroup_new {g : Fields} {d : List (String × String)} {q : String} {ver : String}
    (hg : alookup g q = none) (hd : alookup d q = some ver) :
    alookup (mergeGroup g d) q = some (Json.str ver) := by
  induction d generalizing g with
  | nil => simp [alookup] at hd
  | cons p t ih =>
    obtain ⟨a, b⟩ := p
    rw [mergeGroup_cons]
    by_cases hq : q = a
    · subst hq
      simp [alookup] at hd
      subst hd
      have hg' : alookup (insertAbsent g q (Json.str b)) q = some (Json.str b) := by
        unfold insertAbsent
        rw [hg, alookup_append, hg]
        simp [alookup, oor]
      exact alookup_mergeGroup_pres t hg'
    · simp [alookup, hq] at hd
      exact ih (alookup_insertAbsent_none hq (Json.str b) hg) hd

/-!
## Dependency-group merge lemmas
-/

theorem alookup_depGroupMerge_ne {fs : Fields} {key q : String}
    (d : List (String × String)) (h : q ≠ key) :
    alookup (depGroupMerge fs key d) q = alookup fs q := by
  unfold depGroupMerge
  split
  · rw [alookup_ains]
    simp [h]
  · rfl

theorem depGroupMerge_lookup_obj {fs : Fields} {key : String} {g : Fields}
    (d : List (String × String)) (h : alookup fs key = some (Json.obj g)) :
    alookup (depGroupMerge fs key d) key = some (Json.obj (mergeGroup g d)) := by
  unfold depGroupMerge
  rw [h]
  rw [alookup_ains]
  simp

theorem depGroupMerge_skip {fs : Fields} {key : String} (d : List (String × String))
    (h : ∀ g, alookup fs key ≠ some (Json.obj g)) :
    depGroupMerge fs key d = fs := by
  unfold depGroupMerge
  split
  · rename_i g hg
    exact absurd hg (h g)
  · rfl

theorem skip_of_not_obj {fs : Fields} {key : String}
    (h : isObjB (lookupOrNull fs key) = false) :
    ∀ g, alookup fs key ≠ some (Json.obj g) := by
  intro g hg
  rw [lookupOrNull, hg] at h
  simp [isObjB] at h
/-!
## Text-replacement lemmas
-/

theorem startsB_length {p s : List Char} (h : startsB p s = true) : p.length ≤ s.length := by
  induction p generalizing s with
  | nil => simp
  | cons a ps ih =>
    cases s with
    | nil => simp [startsB] at h
    | cons b ss =>
      simp [startsB] at h
      have := ih h.2
      simp [List.length_cons]
      omega

theorem startsB_take {p s : List Char} (h : startsB p s = true) (n : Nat) :
    startsB (List.take n p) s = true := by
  induction p generalizing s n with
  | nil => simp [startsB]
  | cons a ps ih =>
    cases n with
    | zero => simp [startsB]
    | succ n' =>
      cases s with
      | nil => simp [startsB] at h
      | cons b ss =>
        simp [startsB] at h ⊢
        exact ⟨h.1, ih h.2 n'⟩

theorem occursB_take_false {p y : List Char} (n : Nat)
    (h : occursB (List.take n p) y = false) : occursB p y = false := by
  cases hx : occursB p y with
  | false => rfl
  | true =>
    exfalso
    have htake : occursB (List.take n p) y = true := by
      clear h
      induction y with
      | nil =>
        simp [occursB] at hx ⊢
        exact startsB_take hx n
      | cons c cs ih =>
        simp [occursB] at hx ⊢
        rcases hx with h1 | h2
        · exact Or.inl (startsB_take h1 n)
        · exact Or.inr (ih h2)
    rw [htake] at h
    exact Bool.noConfusion h

theorem replaceFuel_no_occ {p : List Char} (r : List Char) {s : List Char}
    (hno : occursB p s = false) (hp : p ≠ []) :
    ∀ fuel, replaceFuel p r fuel s = s := by
  intro fuel
  induction fuel generalizing s with
  | zero => rfl
  | succ f ih =>
    cases s with
    | nil => rfl
    | cons c cs =>
      simp [occursB] at hno
      simp [replaceFuel, hno.1]
      exact ih hno.2

theorem replaceFuel_length {p r : List Char} (h : p.length ≤ r.length) :
    ∀ fuel (s : List Char), s.length ≤ (replaceFuel p r fuel s).length := by
  intro fuel
  induction fuel with
  | zero => intro s; simp [replaceFuel]
  | succ f ih =>
    intro s
    cases s with
    | nil => simp [replaceFuel]
    | cons c cs =>
      by_cases hs : startsB p (c :: cs) = true
      · have hple := startsB_length hs
        have hrec := ih (List.drop p.length (c :: cs))
        rw [List.length_drop] at hrec
        simp [List.length_cons] at hple hrec
        simp [replaceFuel, hs, List.length_append]
        omega
      · have hs' : startsB p (c :: cs) = false := by
          cases hx : startsB p (c :: cs) with
          | false => rfl
          | true => exact absurd hx hs
        simp [replaceFuel, hs']
        have := ih cs
        omega

theorem startsB_drop_of_lt {y : List Char} :
    ∀ {x p : List Char}, startsB p (x ++ y) = true → x.length < p.length →
      startsB (List.drop x.length p) y = true := by
  intro x
  induction x with
  | nil =>
    intro p h _
    simpa using h
  | cons a x' ih =>
    intro p h hlt
    cases p with
    | nil => simp at hlt
    | cons b ps =>
      simp [startsB] at h
      simp [List.drop]
      exact ih h.2 (by simpa using hlt)

theorem drop_append_of_le {n : Nat} {x y : List Char} (h : n ≤ x.length) :
    List.drop n (x ++ y) = List.drop n x ++ y := by
  rw [List.drop_append_eq_append_drop]
  rw [Nat.sub_eq_zero_of_le h]
  rw [List.drop_zero]

theorem replaceFuel_keeps_tail {p r y : List Char} (hp : p ≠ [])
    (hno : occursB p y = false)
    (hbd : ∀ k, k < p.length → 0 < k → startsB (List.drop k p) y = false) :
    ∀ fuel x, ∃ z, replaceFuel p r fuel (x ++ y) = z ++ y := by
  intro fuel
  induction fuel with
  | zero => intro x; exact ⟨x, rfl⟩
  | succ f ih =>
    intro x
    cases x with
    | nil =>
      exact ⟨[], replaceFuel_no_occ r hno hp (f + 1)⟩
    | cons a x' =>
      by_cases hs : startsB p (a :: (x' ++ y)) = true
      · by_cases hlen : p.length ≤ (a :: x').length
        · obtain ⟨z', hz⟩ := ih (List.drop p.length (a :: x'))
          refine ⟨r ++ z', ?_⟩
          have hstep : replaceFuel p r (f + 1) ((a :: x') ++ y)
              = r ++ replaceFuel p r f (List.drop p.length ((a :: x') ++ y)) := by
            simp [replaceFuel, hs]
          rw [hstep, drop_append_of_le hlen, hz, List.append_assoc]
        · push_neg at hlen
          have hsp := startsB_drop_of_lt (x := a :: x') (by simpa using hs) hlen
          have hfalse := hbd (a :: x').length hlen (by simp)
          rw [hfalse] at hsp
          exact Bool.noConfusion hsp
      · have hs' : startsB p (a :: (x' ++ y)) = false := by
          cases hx : startsB p (a :: (x' ++ y)) with
          | false => rfl
          | true => exact absurd hx hs
        obtain ⟨z', hz⟩ := ih x'
        refine ⟨a :: z', ?_⟩
        simp [replaceFuel, hs']
        exact hz

theorem replaceAll_no_occ {p r s : List Char} (hno : occursB p s = false) (hp : p ≠ []) :
    replaceAll p r s = s :=
  replaceFuel_no_occ r hno hp s.length

theorem replaceAll_length {p r : List Char} (h : p.length ≤ r.length) (s : List Char) :
    s.length ≤ (replaceAll p r s).length :=
  replaceFuel_length h s.length s

theorem replaceAll_keeps_tail {p r y : List Char} (hp : p ≠ [])
    (hno : occursB p y = false)
    (hbd : ∀ k, k < p.length → 0 < k → startsB (List.drop k p) y = false)
    (x : List Char) : ∃ z, replaceAll p r (x ++ y) = z ++ y :=
  replaceFuel_keeps_tail hp hno hbd (x ++ y).length x
/-!
## Concrete facts about the schema patterns and the appended block
-/

theorem genPat_ne : genPat.data ≠ [] := by decide

theorem dsPat_ne : dsPat.data ≠ [] := by decide

theorem userPat_ne : userPat.data ≠ [] := by decide

set_option maxRecDepth 100000 in
theorem genPat_no_occ_block : occursB genPat.data CMD_PRISMA_MODELS.data = false := by decide

set_option maxRecDepth 100000 in
theorem dsPat_no_occ_block : occursB dsPat.data CMD_PRISMA_MODELS.data = false := by decide

set_option maxRecDepth 100000 in
theorem userPat_no_occ_block : occursB userPat.data CMD_PRISMA_MODELS.data = false := by decide

set_option maxRecDepth 100000 in
theorem genPat_bd_block :
    ∀ k, k < genPat.data.length → 0 < k →
      startsB (List.drop k genPat.data) CMD_PRISMA_MODELS.data = false := by decide

set_option maxRecDepth 100000 in
theorem dsPat_bd_block :
    ∀ k, k < dsPat.data.length → 0 < k →
      startsB (List.drop k dsPat.data) CMD_PRISMA_MODELS.data = false := by decide

set_option maxRecDepth 100000 in
theorem userPat_bd_block :
    ∀ k, k < userPat.data.length → 0 < k →
      startsB (List.drop k userPat.data) CMD_PRISMA_MODELS.data = false := by decide

/-!
## Structural facts about `modify_prisma_schema_text`
-/

theorem modify_head_form (t : List Char) :
    ∃ w, modify_prisma_schema_text t = w ++ CMD_PRISMA_MODELS.data :=
  ⟨_, rfl⟩

theorem modify_keeps_tail (w : List Char) :
    ∃ z, modify_prisma_schema_text (w ++ CMD_PRISMA_MODELS.data)
      = z ++ CMD_PRISMA_MODELS.data ++ CMD_PRISMA_MODELS.data := by
  obtain ⟨z1, e1⟩ := replaceAll_keeps_tail (r := genRep.data) genPat_ne genPat_no_occ_block genPat_bd_block w
  obtain ⟨z2, e2⟩ := replaceAll_keeps_tail (r := dsRep.data) dsPat_ne dsPat_no_occ_block dsPat_bd_block z1
  simp only [modify_prisma_schema_text]
  rw [e1, e2]
  by_cases hg : occursB userMarker.data (z2 ++ CMD_PRISMA_MODELS.data) = true
  · obtain ⟨z3, e3⟩ :=
      replaceAll_keeps_tail (r := userRep.data) userPat_ne userPat_no_occ_block userPat_bd_block z2
    rw [if_pos hg, e3]
    exact ⟨z3, rfl⟩
  · rw [if_neg hg]
    exact ⟨z2, rfl⟩

set_option maxRecDepth 100000 in
theorem modify_length_lb (s : List Char) :
    s.length + CMD_PRISMA_MODELS.data.length ≤ (modify_prisma_schema_text s).length := by
  have l1 : genPat.data.length ≤ genRep.data.length := by decide
  have l2 : dsPat.data.length ≤ dsRep.data.length := by decide
  have l3 : userPat.data.length ≤ userRep.data.length := by decide
  have h1 := replaceAll_length l1 s
  have h2 := replaceAll_length l2 (replaceAll genPat.data genRep.data s)
  simp only [modify_prisma_schema_text]
  by_cases hg : occursB userMarker.data
      (replaceAll dsPat.data dsRep.data (replaceAll genPat.data genRep.data s)) = true
  · have h3 := replaceAll_length l3
      (replaceAll dsPat.data dsRep.data (replaceAll genPat.data genRep.data s))
    rw [if_pos hg, List.length_append]
    omega
  · rw [if_neg hg, List.length_append]
    omega

theorem modify_ne_self (t : List Char) :
    modify_prisma_schema_text (modify_prisma_schema_text t) ≠ modify_prisma_schema_text t := by
  intro h
  have hlen := congrArg List.length h
  have hb := modify_length_lb (modify_prisma_schema_text t)
  have hpos : 0 < CMD_PRISMA_MODELS.data.length := List.length_pos.mpr (by decide)
  omega

/-!
## Lookup characterisation of the overwrite-fold
-/

theorem alookup_overF {κ α : Type} [DecidableEq κ] (l m : List (κ × α)) (q : κ) :
    alookup (overwriteFold m l) q = oor (alookup l.reverse q) (alookup m q) := by
  induction l generalizing m with
  | nil => simp [overwriteFold, alookup, oor]
  | cons p t ih =>
    obtain ⟨a, b⟩ := p
    rw [overF_cons]
    rw [ih]
    rw [show ((a, b) :: t).reverse = t.reverse ++ [(a, b)] from by simp]
    rw [alookup_append]
    rw [alookup_ains]
    cases hX : alookup t.reverse q with
    | some u => simp [oor]
    | none =>
      by_cases hq : q = a <;> simp [alookup, hq, oor]

/-!
## Preservation lemmas for the file-system model
-/

theorem copy_preserve (emb : List (List Char × List Char)) (pre dest : List Char) (fs : FSt)
    (q : List Char) (hne : ∀ rel, dest ++ '/' :: rel ≠ q) :
    alookup (copy_embedded_dir emb pre dest fs) q = alookup fs q := by
  unfold copy_embedded_dir
  generalize emb.filter (fun f => startsB pre f.1) = l
  induction l generalizing fs with
  | nil => rfl
  | cons f t ih =>
    rw [List.foldl_cons]
    rw [ih (ains fs _ _)]
    rw [alookup_ains]
    rw [if_neg (fun h => hne _ h.symm)]

theorem restate_dest_ne : ∀ rel : List Char, "restate".data ++ '/' :: rel ≠ pkgPath := by
  intro rel h
  have h' : 'r' :: ('e' :: 's' :: 't' :: 'a' :: 't' :: 'e' :: '/' :: rel)
      = 'p' :: ('a' :: 'c' :: 'k' :: 'a' :: 'g' :: 'e' :: '.' :: 'j' :: 's' :: 'o' :: 'n' :: []) := h
  injection h' with hc _
  exact absurd hc (by decide)

theorem readme_ne_pkg : ¬ (pkgPath = "restate/README.md".data) := by decide

theorem restate_scaffold_preserves_manifest (emb : List (List Char × List Char)) (fs : FSt) :
    alookup (restate_scaffold emb fs) pkgPath = alookup fs pkgPath := by
  unfold restate_scaffold write_file
  rw [alookup_ains]
  rw [if_neg readme_ne_pkg]
  exact copy_preserve emb _ _ fs pkgPath restate_dest_ne
/-!
## Claim theorems
-/

/-- Claim C1: merging a dependency fragment into a manifest whose
`dependencies` group is an object keeps every existing key's value unchanged
and adds every absent fragment key with the fragment's value; in particular
merging `[("a","2.0"), ("b","3.0")]` into `{"dependencies": {"a": "1.0"}}`
yields `{"dependencies": {"a": "1.0", "b": "3.0"}}`. -/
theorem claim1_manifest_merge_additive
    (fs dfs : Fields) (deps devDeps : List (String × String))
    (h : alookup fs "dependencies" = some (Json.obj dfs)) :
    (∃ fs2 dfs2,
        merge_dependencies (Json.obj fs) deps devDeps = Json.obj fs2
      ∧ alookup fs2 "dependencies" = some (Json.obj dfs2)
      ∧ (∀ k v, alookup dfs k = some v → alookup dfs2 k = some v)
      ∧ (∀ k v, alookup dfs k = none → alookup deps k = some v →
            alookup dfs2 k = some (Json.str v)))
  ∧ merge_dependencies (Json.obj [("dependencies", Json.obj [("a", Json.str "1.0")])])
      [("a", "2.0"), ("b", "3.0")] []
    = Json.obj [("dependencies", Json.obj [("a", Json.str "1.0"), ("b", Json.str "3.0")])] := by
  constructor
  · refine ⟨depGroupMerge (depGroupMerge fs "dependencies" deps) "devDependencies" devDeps,
      mergeGroup dfs deps, rfl, ?_, ?_, ?_⟩
    · rw [alookup_depGroupMerge_ne devDeps (by decide)]
      exact depGroupMerge_lookup_obj deps h
    · intro k v hk
      exact alookup_mergeGroup_pres deps hk
    · intro k v hk hd
      exact alookup_mergeGroup_new hk hd
  · rfl

/-- Witness for `claim1_manifest_merge_additive` at the manifest and fragment
of the spec's worked example. -/
theorem claim1_manifest_merge_additive_witness :
    (∃ fs2 dfs2,
        merge_dependencies (Json.obj [("dependencies", Json.obj [("a", Json.str "1.0")])])
          [("a", "2.0"), ("b", "3.0")] [] = Json.obj fs2
      ∧ alookup fs2 "dependencies" = some (Json.obj dfs2)
      ∧ (∀ k v, alookup [("a", Json.str "1.0")] k = some v → alookup dfs2 k = some v)
      ∧ (∀ k v, alookup [("a", Json.str "1.0")] k = none →
            alookup [("a", "2.0"), ("b", "3.0")] k = some v →
            alookup dfs2 k = some (Json.str v)))
  ∧ merge_dependencies (Json.obj [("dependencies", Json.obj [("a", Json.str "1.0")])])
      [("a", "2.0"), ("b", "3.0")] []
    = Json.obj [("dependencies", Json.obj [("a", Json.str "1.0"), ("b", Json.str "3.0")])] :=
  claim1_manifest_merge_additive [("dependencies", Json.obj [("a", Json.str "1.0")])]
    [("a", Json.str "1.0")] [("a", "2.0"), ("b", "3.0")] [] rfl

set_option maxRecDepth 10000 in
/-- Claim C2 counterexample: a manifest whose `devDependencies` group is
absent does not make the cmd manifest update fail (it succeeds, silently
skipping the dev-dependency insertion), and `merge_dependencies` applied to
a document with no `dependencies` group silently returns it unchanged
rather than raising a missing-group error. -/
theorem claim2_counterexample :
    exceptOk (update_package_json_cmd_fields [("dependencies", Json.obj [])]) = true
  ∧ merge_dependencies (Json.obj []) [("a", "1.0")] [] = Json.obj [] :=
  ⟨rfl, rfl⟩

theorem cmd_dev_match_ok (fs2 : Fields) :
    exceptOk (match lookupOrNull fs2 "devDependencies" with
     | Json.obj h => Except.ok (ains fs2 "devDependencies" (Json.obj (mergeGroup h cmd_dev_deps)))
     | _ => (Except.ok fs2 : Except (List Char) Fields)) = true := by
  cases lookupOrNull fs2 "devDependencies" <;> rfl

theorem cmd_dev_match_skip (fs2 : Fields)
    (h : isObjB (lookupOrNull fs2 "devDependencies") = false) :
    (match lookupOrNull fs2 "devDependencies" with
     | Json.obj h => Except.ok (ains fs2 "devDependencies" (Json.obj (mergeGroup h cmd_dev_deps)))
     | _ => (Except.ok fs2 : Except (List Char) Fields)) = Except.ok fs2 := by
  cases hx : lookupOrNull fs2 "devDependencies" with
  | obj f => rw [hx] at h; simp [isObjB] at h
  | str s => rfl
  | num n => rfl
  | bool b => rfl
  | null => rfl
  | arr xs => rfl

/-- Claim C2 (amended): only the `update_package_json_*` helpers (ai, ui and
cmd) fail hard, and they do so exactly when the `dependencies` group is
absent or not an object (they succeed whenever it is an object); a missing
or non-object `devDependencies` group is silently skipped by the cmd
updater, whose result then still has no `devDependencies` object; and
`merge_dependencies` silently skips any absent or non-object group, leaving
the document unchanged. -/
theorem claim2_missing_group_split (fs : Fields) (d dd : List (String × String)) :
    (isObjB (lookupOrNull fs "dependencies") = false →
        update_package_json_ai_fields fs = Except.error missingDepsMsg.data
      ∧ update_package_json_ui_fields fs = Except.error missingDepsMsg.data
      ∧ update_package_json_cmd_fields fs = Except.error missingDepsMsg.data)
  ∧ (∀ g, alookup fs "dependencies" = some (Json.obj g) →
        exceptOk (update_package_json_ai_fields fs) = true
      ∧ exceptOk (update_package_json_ui_fields fs) = true
      ∧ exceptOk (update_package_json_cmd_fields fs) = true)
  ∧ (∀ g, alookup fs "dependencies" = some (Json.obj g) →
      isObjB (lookupOrNull fs "devDependencies") = false →
        ∃ fs2, update_package_json_cmd_fields fs = Except.ok fs2
          ∧ isObjB (lookupOrNull fs2 "devDependencies") = false)
  ∧ (isObjB (lookupOrNull fs "dependencies") = false →
      isObjB (lookupOrNull fs "devDependencies") = false →
        merge_dependencies (Json.obj fs) d dd = Json.obj fs) := by
  refine ⟨?_, ?_, ?_, ?_⟩
  · intro h
    refine ⟨?_, ?_, ?_⟩
    · unfold update_package_json_ai_fields
      split
      · rename_i g hg
        rw [hg] at h
        simp [isObjB] at h
      · rfl
    · unfold update_package_json_ui_fields
      split
      · rename_i g hg
        rw [hg] at h
        simp [isObjB] at h
      · rfl
    · unfold update_package_json_cmd_fields
      split
      · rename_i g hg
        rw [hg] at h
        simp [isObjB] at h
      · rfl
  · intro g hg
    have hl : lookupOrNull fs "dependencies" = Json.obj g := by
      unfold lookupOrNull
      rw [hg]
    refine ⟨?_, ?_, ?_⟩
    · unfold update_package_json_ai_fields
      rw [hl]
      rfl
    · unfold update_package_json_ui_fields
      rw [hl]
      rfl
    · unfold update_package_json_cmd_fields
      rw [hl]
      exact cmd_dev_match_ok
        (if (alookup (ains fs "dependencies" (Json.obj (mergeGroup g cmd_deps)))
              "devDependencies").isSome
         then ains fs "dependencies" (Json.obj (mergeGroup g cmd_deps))
         else ains fs "dependencies" (Json.obj (mergeGroup g cmd_deps))
              ++ [("devDependencies", Json.null)])
  · intro g hg hdev
    have hl : lookupOrNull fs "dependencies" = Json.obj g := by
      unfold lookupOrNull
      rw [hg]
    set fs1 := ains fs "dependencies" (Json.obj (mergeGroup g cmd_deps)) with hfs1def
    have hdev1 : alookup fs1 "devDependencies" = alookup fs "devDependencies" := by
      rw [hfs1def, alookup_ains, if_neg (by decide)]
    set fs2 := if (alookup fs1 "devDependencies").isSome then fs1
               else fs1 ++ [("devDependencies", Json.null)] with hfs2def
    have hdev2 : isObjB (lookupOrNull fs2 "devDependencies") = false := by
      cases hx : alookup fs "devDependencies" with
      | some v =>
        have hfs2 : fs2 = fs1 := by
          rw [hfs2def, if_pos (by rw [hdev1, hx]; rfl)]
        unfold lookupOrNull at hdev ⊢
        rw [hfs2, hdev1, hx]
        rw [hx] at hdev
        exact hdev
      | none =>
        have hfs2 : fs2 = fs1 ++ [("devDependencies", Json.null)] := by
          rw [hfs2def, if_neg (by rw [hdev1, hx]; simp)]
        unfold lookupOrNull
        rw [hfs2, alookup_append, hdev1, hx]
        rfl
    refine ⟨fs2, ?_, hdev2⟩
    unfold update_package_json_cmd_fields
    rw [hl]
    exact cmd_dev_match_skip fs2 hdev2
  · intro h1 h2
    show Json.obj (depGroupMerge (depGroupMerge fs "dependencies" d) "devDependencies" dd)
      = Json.obj fs
    rw [depGroupMerge_skip d (skip_of_not_obj h1)]
    rw [depGroupMerge_skip dd (skip_of_not_obj h2)]

/-- Witness for `claim2_missing_group_split`, at the empty manifest object
for the error and silent-skip directions and at `{"dependencies": {}}` for
the success directions. -/
theorem claim2_missing_group_split_witness :
    (update_package_json_ai_fields [] = Except.error missingDepsMsg.data
  ∧ update_package_json_ui_fields [] = Except.error missingDepsMsg.data
  ∧ update_package_json_cmd_fields [] = Except.error missingDepsMsg.data)
  ∧ (exceptOk (update_package_json_ai_fields [("dependencies", Json.obj [])]) = true
  ∧ exceptOk (update_package_json_ui_fields [("dependencies", Json.obj [])]) = true
  ∧ exceptOk (update_package_json_cmd_fields [("dependencies", Json.obj [])]) = true)
  ∧ (∃ fs2, update_package_json_cmd_fields [("dependencies", Json.obj [])] = Except.ok fs2
      ∧ isObjB (lookupOrNull fs2 "devDependencies") = false)
  ∧ merge_dependencies (Json.obj []) [("a", "1.0")] [] = Json.obj [] :=
  ⟨(claim2_missing_group_split [] [("a", "1.0")] []).1 rfl,
   (claim2_missing_group_split [("dependencies", Json.obj [])] [] []).2.1 [] rfl,
   (claim2_missing_group_split [("dependencies", Json.obj [])] [] []).2.2.1 [] rfl rfl,
   (claim2_missing_group_split [] [("a", "1.0")] []).2.2.2 rfl rfl⟩

/-- Claim C3: merging a message-bundle fragment object into a base bundle
object gives every fragment namespace exactly the fragment's value
(overwriting colliding base namespaces wholesale) and leaves every other
base namespace unchanged; in particular merging
`{"chat": {"x": "new", "y": "z"}}` into `{"chat": {"x": "old"}}` yields
`{"chat": {"x": "new", "y": "z"}}`. -/
theorem claim3_translation_merge_overwrites (bfs afs : Fields) :
    (∃ m, merge_translations_value (Json.obj bfs) (Json.obj afs) = Json.obj m
      ∧ ∀ k, alookup m k = oor (alookup afs.reverse k) (alookup bfs k))
  ∧ merge_translations_value
      (Json.obj [("chat", Json.obj [("x", Json.str "old")])])
      (Json.obj [("chat", Json.obj [("x", Json.str "new"), ("y", Json.str "z")])])
    = Json.obj [("chat", Json.obj [("x", Json.str "new"), ("y", Json.str "z")])] := by
  constructor
  · exact ⟨overwriteFold bfs afs, rfl, fun k => alookup_overF afs bfs k⟩
  · rfl

/-- Claim C4: both the dependency-manifest merge and the message-bundle
merge are idempotent: applying either merge twice with the same fragment
gives the same document as applying it once. -/
theorem claim4_merges_idempotent :
    (∀ (base : Json) (d dd : List (String × String)),
        merge_dependencies (merge_dependencies base d dd) d dd
          = merge_dependencies base d dd)
  ∧ (∀ base additions : Json,
        merge_translations_value (merge_translations_value base additions) additions
          = merge_translations_value base additions) := by
  constructor
  · intro base d dd
    cases base with
    | str s => rfl
    | num n => rfl
    | bool b => rfl
    | null => rfl
    | arr xs => rfl
    | obj fs =>
      show Json.obj _ = Json.obj _
      set A := depGroupMerge fs "dependencies" d with hA
      set B := depGroupMerge A "devDependencies" dd with hB
      have hBdep : alookup B "dependencies" = alookup A "dependencies" :=
        alookup_depGroupMerge_ne dd (by decide)
      have h1 : depGroupMerge B "dependencies" d = B := by
        by_cases hobj : ∃ g, alookup fs "dependencies" = some (Json.obj g)
        · obtain ⟨g, hx⟩ := hobj
          have hAdep : alookup A "dependencies" = some (Json.obj (mergeGroup g d)) :=
            depGroupMerge_lookup_obj d hx
          unfold depGroupMerge
          rw [hBdep.trans hAdep]
          show ains B "dependencies" (Json.obj (mergeGroup (mergeGroup g d) d)) = B
          rw [mergeGroup_idem]
          exact ains_same (hBdep.trans hAdep)
        · refine depGroupMerge_skip d ?_
          intro g hg
          have hAskip : A = fs := depGroupMerge_skip d (fun g' hg' => hobj ⟨g', hg'⟩)
          rw [hBdep, hAskip] at hg
          exact hobj ⟨g, hg⟩
      have h2 : depGroupMerge B "devDependencies" dd = B := by
        by_cases hobj : ∃ g, alookup A "devDependencies" = some (Json.obj g)
        · obtain ⟨g, hx⟩ := hobj
          have hBdev : alookup B "devDependencies" = some (Json.obj (mergeGroup g dd)) :=
            depGroupMerge_lookup_obj dd hx
          unfold depGroupMerge
          rw [hBdev]
          show ains B "devDependencies" (Json.obj (mergeGroup (mergeGroup g dd) dd)) = B
          rw [mergeGroup_idem]
          exact ains_same hBdev
        · refine depGroupMerge_skip dd ?_
          intro g hg
          have hBskip : B = A := depGroupMerge_skip dd (fun g' hg' => hobj ⟨g', hg'⟩)
          rw [hBskip] at hg
          exact hobj ⟨g, hg⟩
      rw [h1, h2]
  · intro base additions
    cases base <;> cases additions <;> try rfl
    show merge_translations_value (merge_translations_value (Json.obj _) (Json.obj _)) _ = _
    simp [merge_translations_value, overF_idem]

/-- Claim C5: the schema patch is not idempotent: applying
`modify_prisma_schema` (resp. `append_to_prisma_schema`) twice over any base
text yields a document containing the appended models block twice and
differing from the single application; the append step runs unconditionally
with no containment check. -/
theorem claim5_schema_append_not_idempotent (t : List Char) :
    (∃ z, modify_prisma_schema_text (modify_prisma_schema_text t)
        = z ++ CMD_PRISMA_MODELS.data ++ CMD_PRISMA_MODELS.data)
  ∧ modify_prisma_schema_text (modify_prisma_schema_text t) ≠ modify_prisma_schema_text t
  ∧ append_to_prisma_schema_text (append_to_prisma_schema_text t)
      = t ++ PRISMA_AUTH_MODELS.data ++ PRISMA_AUTH_MODELS.data
  ∧ append_to_prisma_schema_text (append_to_prisma_schema_text t)
      ≠ append_to_prisma_schema_text t := by
  refine ⟨?_, modify_ne_self t, rfl, ?_⟩
  · obtain ⟨w, hw⟩ := modify_head_form t
    rw [hw]
    exact modify_keeps_tail w
  · intro h
    have hlen := congrArg List.length h
    simp only [append_to_prisma_schema_text, List.length_append] at hlen
    have hpos : 0 < PRISMA_AUTH_MODELS.data.length := List.length_pos.mpr (by decide)
    omega

set_option maxRecDepth 100000 in
/-- Claim C6 counterexample: on a base text equal to the User back-reference
match itself (which lacks the `"model User {"` marker) the code skips the
third replacement pair even though its match substring occurs, so the
result `text ++ block` differs from the spec-described transformation that
applies every pair unconditionally. -/
theorem claim6_counterexample :
    modify_prisma_schema_text userPat.data = userPat.data ++ CMD_PRISMA_MODELS.data
  ∧ spec_apply_fragment userPat.data ≠ modify_prisma_schema_text userPat.data :=
  ⟨rfl, by decide⟩

/-- Claim C6 (amended): the transformation applies the generator and
datasource pairs as literal substring replacements in order, applies the
User back-reference pair only when the current text contains
`"model User {"`, treats a pair whose match does not occur as a silent
no-op, and appends the models block unconditionally; in particular a text
matching no pattern and lacking the marker is returned unchanged with the
block appended. -/
theorem claim6_guarded_replacements (t : List Char) :
    (occursB genPat.data t = false → occursB dsPat.data t = false →
      occursB userMarker.data t = false →
        modify_prisma_schema_text t = t ++ CMD_PRISMA_MODELS.data)
  ∧ ∃ z, modify_prisma_schema_text t = z ++ CMD_PRISMA_MODELS.data := by
  constructor
  · intro h1 h2 h3
    simp only [modify_prisma_schema_text]
    rw [replaceAll_no_occ h1 genPat_ne]
    rw [replaceAll_no_occ h2 dsPat_ne]
    rw [h3]
    rw [if_neg (by decide : ¬ (false = true))]
  · exact ⟨_, rfl⟩

/-- Witness for `claim6_guarded_replacements` at the empty schema text. -/
theorem claim6_guarded_replacements_witness :
    modify_prisma_schema_text [] = [] ++ CMD_PRISMA_MODELS.data
  ∧ ∃ z, modify_prisma_schema_text [] = z ++ CMD_PRISMA_MODELS.data :=
  ⟨(claim6_guarded_replacements []).1 rfl rfl rfl, (claim6_guarded_replacements []).2⟩

/-- Claim C7: running the add workflow in a directory with no `package.json`
fails with the precondition error before any scaffolding branch runs, and
the file-system state is returned unchanged (no file written). -/
theorem claim7_add_requires_manifest (emb : List (List Char × List Char)) (ext : String)
    (fs : FSt) (h : alookup fs pkgPath = none) :
    executeFS emb ext fs = (Except.error noPkgMsg.data, fs) := by
  unfold executeFS
  rw [h]
  rfl

/-- Witness for `claim7_add_requires_manifest` on an empty file system. -/
theorem claim7_add_requires_manifest_witness :
    executeFS [] "ai" [] = (Except.error noPkgMsg.data, []) :=
  claim7_add_requires_manifest [] "ai" [] rfl

/-- Claim C8: for every extension identifier outside `{"ai","ui","restate",
"cmd"}` the dispatch fails with the unknown-extension error, the file
system is unchanged (no scaffolding action), and the error message names
each member of the valid set. -/
theorem claim8_unknown_extension (emb : List (List Char × List Char)) (ext : String) (fs : FSt)
    (hpkg : (alookup fs pkgPath).isSome)
    (hext : ext ∉ (["ai", "ui", "restate", "cmd"] : List String)) :
    executeFS emb ext fs = (Except.error (unknownExtMsg ext), fs)
  ∧ ∀ name ∈ (["ai", "ui", "restate", "cmd"] : List String),
      ∃ u v, unknownExtMsg ext = u ++ ("\x27" ++ name ++ "\x27").data ++ v := by
  have h0 : (alookup fs pkgPath).isNone = false := by
    cases hx : alookup fs pkgPath with
    | none => rw [hx] at hpkg; simp at hpkg
    | some e => rfl
  simp at hext
  obtain ⟨h1, h2, h3, h4⟩ := hext
  constructor
  · unfold executeFS
    rw [h0]
    simp [h1, h2, h3, h4]
  · intro name hname
    simp at hname
    rcases hname with rfl | rfl | rfl | rfl
    · refine ⟨"Unknown extension: ".data ++ ext.data ++ ". Use ".data,
        ", \x27ui\x27, \x27restate\x27, or \x27cmd\x27.".data, ?_⟩
      simp only [unknownExtMsg, List.append_assoc]
      rfl
    · refine ⟨"Unknown extension: ".data ++ ext.data ++ ". Use \x27ai\x27, ".data,
        ", \x27restate\x27, or \x27cmd\x27.".data, ?_⟩
      simp only [unknownExtMsg, List.append_assoc]
      rfl
    · refine ⟨"Unknown extension: ".data ++ ext.data ++ ". Use \x27ai\x27, \x27ui\x27, ".data,
        ", or \x27cmd\x27.".data, ?_⟩
      simp only [unknownExtMsg, List.append_assoc]
      rfl
    · refine ⟨"Unknown extension: ".data
          ++ ext.data ++ ". Use \x27ai\x27, \x27ui\x27, \x27restate\x27, or ".data,
        ".".data, ?_⟩
      simp only [unknownExtMsg, List.append_assoc]
      rfl

/-- Witness for `claim8_unknown_extension` at the identifier `"zzz"`. -/
theorem claim8_unknown_extension_witness :
    (executeFS [] "zzz" [(pkgPath, Entry.jsonF (Json.obj []))]
      = (Except.error (unknownExtMsg "zzz"), [(pkgPath, Entry.jsonF (Json.obj []))]))
  ∧ ∀ name ∈ (["ai", "ui", "restate", "cmd"] : List String),
      ∃ u v, unknownExtMsg "zzz" = u ++ ("\x27" ++ name ++ "\x27").data ++ v :=
  claim8_unknown_extension [] "zzz" [(pkgPath, Entry.jsonF (Json.obj []))] rfl (by decide)

/-- Claim C9: a successful `add restate` never touches the manifest: the
restate branch succeeds and the `package.json` entry of the resulting file
system is exactly the one of the input file system. -/
theorem claim9_restate_preserves_manifest (emb : List (List Char × List Char)) (fs : FSt)
    (hpkg : (alookup fs pkgPath).isSome) :
    (executeFS emb "restate" fs).1 = Except.ok ()
  ∧ alookup (executeFS emb "restate" fs).2 pkgPath = alookup fs pkgPath := by
  have h0 : (alookup fs pkgPath).isNone = false := by
    cases hx : alookup fs pkgPath with
    | none => rw [hx] at hpkg; simp at hpkg
    | some e => rfl
  have hred : executeFS emb "restate" fs = (Except.ok (), restate_scaffold emb fs) := by
    unfold executeFS
    rw [h0]
    rfl
  rw [hred]
  exact ⟨rfl, restate_scaffold_preserves_manifest emb fs⟩

/-- Witness for `claim9_restate_preserves_manifest` on a one-file system. -/
theorem claim9_restate_preserves_manifest_witness :
    (executeFS [] "restate" [(pkgPath, Entry.jsonF Json.null)]).1 = Except.ok ()
  ∧ alookup (executeFS [] "restate" [(pkgPath, Entry.jsonF Json.null)]).2 pkgPath
      = alookup [(pkgPath, Entry.jsonF Json.null)] pkgPath :=
  claim9_restate_preserves_manifest [] [(pkgPath, Entry.jsonF Json.null)] rfl

/-- Claim C10: when the stored bundle or the fragment parses to a non-object
JSON value, the translation merge inserts nothing, succeeds, and writes the
base document back semantically unchanged (in the model, the file system is
returned exactly as it was). -/
theorem claim10_non_object_bundle_noop (fs : FSt) (path : List Char) (j frag : Json)
    (hread : alookup fs path = some (Entry.jsonF j))
    (h : isObjB j = false ∨ isObjB frag = false) :
    merge_translations_fs fs path frag = Except.ok fs
  ∧ merge_translations_value j frag = j := by
  have hval : merge_translations_value j frag = j := by
    cases j <;> cases frag <;> first
      | rfl
      | (rcases h with h | h <;> simp [isObjB] at h)
  refine ⟨?_, hval⟩
  unfold merge_translations_fs
  rw [hread]
  show Except.ok (ains fs path (Entry.jsonF (merge_translations_value j frag))) = Except.ok fs
  rw [hval]
  rw [ains_same hread]

/-- Witness for `claim10_non_object_bundle_noop` on an array-valued bundle. -/
theorem claim10_non_object_bundle_noop_witness :
    merge_translations_fs [("messages/en.json".data, Entry.jsonF (Json.arr []))]
      "messages/en.json".data (Json.obj [])
      = Except.ok [("messages/en.json".data, Entry.jsonF (Json.arr []))]
  ∧ merge_translations_value (Json.arr []) (Json.obj []) = Json.arr [] :=
  claim10_non_object_bundle_noop _ _ _ _ rfl (Or.inl rfl)
